import Mathlib

/-!
Verification development for `defib` (src/defib.ts): a shallow embedding of
the issue-lifecycle and remediation-policy core, and theorems checking the
specification's claims against it.

Modelling conventions:
* JS timestamps (`Date.now()`) are `Nat` milliseconds; all timestamps the
  program itself stores are positive, and JS truthiness checks such as
  `if (!state.knownIssues[key])` are modelled exactly (absent or zero is
  falsy) by `kiTruthy`.
* `knownIssues` (a JS object) is an association list with at most one
  binding per key; `kiSet`, `kiDelete`, `kiLookup` model property
  assignment, `delete`, and indexing.
* External collaborators (health probe, restart command, process snapshot,
  `kill`, swap reading, D-state scan) enter as explicit oracle parameters,
  matching the interfaces in spec section 6; side effects (kill attempts,
  guidance printing, webhook notifications) are recorded as `Event` values.
* Floating-point message formatting (`toFixed`) is abstracted in message
  strings; no claim depends on message text except through dedup keys,
  which use the pid (matched as `\d+`, hence nonempty) whenever present.
-/

namespace Defib

/-! ### Known-issue registry (the `knownIssues` object) -/

abbrev KnownIssues := List (String × Nat)

def kiLookup : KnownIssues → String → Option Nat
  | [], _ => none
  | e :: rest, k => if e.1 = k then some e.2 else kiLookup rest k

/-- JS truthiness of `state.knownIssues[key]`: present and nonzero. -/
def kiTruthy (m : KnownIssues) (k : String) : Bool :=
  match kiLookup m k with
  | some v => v != 0
  | none => false

def kiDelete : KnownIssues → String → KnownIssues
  | [], _ => []
  | e :: rest, k => if e.1 = k then kiDelete rest k else e :: kiDelete rest k

/-- `state.knownIssues[key] = v` (JS property assignment). -/
def kiSet (m : KnownIssues) (k : String) (v : Nat) : KnownIssues :=
  (k, v) :: kiDelete m k

theorem kiLookup_kiDelete_self (m : KnownIssues) (k : String) :
    kiLookup (kiDelete m k) k = none := by
  induction m with
  | nil => rfl
  | cons e rest ih =>
    by_cases h : e.1 = k <;> simp [kiDelete, kiLookup, h, ih]

theorem kiLookup_kiDelete_of_ne (m : KnownIssues) {k k' : String} (h : k' ≠ k) :
    kiLookup (kiDelete m k) k' = kiLookup m k' := by
  induction m with
  | nil => rfl
  | cons e rest ih =>
    by_cases he : e.1 = k
    · have hne : ¬ e.1 = k' := by
        rw [he]
        exact fun hc => h hc.symm
      simp only [kiDelete, if_pos he, kiLookup, if_neg hne]
      exact ih
    · by_cases he' : e.1 = k'
      · simp only [kiDelete, if_neg he, kiLookup, if_pos he']
      · simp only [kiDelete, if_neg he, kiLookup, if_neg he']
        exact ih

theorem kiLookup_kiSet_self (m : KnownIssues) (k : String) (v : Nat) :
    kiLookup (kiSet m k v) k = some v := by
  simp [kiSet, kiLookup]

theorem kiLookup_kiSet_of_ne (m : KnownIssues) {k k' : String} (v : Nat) (h : k' ≠ k) :
    kiLookup (kiSet m k v) k' = kiLookup m k' := by
  have : ¬ k = k' := fun hc => h hc.symm
  simp [kiSet, kiLookup, this, kiLookup_kiDelete_of_ne m h]

theorem kiTruthy_kiSet_of_ne (m : KnownIssues) {k k' : String} (v : Nat) (h : k' ≠ k) :
    kiTruthy (kiSet m k v) k' = kiTruthy m k' := by
  simp [kiTruthy, kiLookup_kiSet_of_ne m v h]

theorem kiTruthy_kiSet_self (m : KnownIssues) (k : String) {v : Nat} (hv : 0 < v) :
    kiTruthy (kiSet m k v) k = true := by
  simp [kiTruthy, kiLookup_kiSet_self]
  omega

/-! ### String primitives, kernel-computable models of the JS string methods -/

/-- `text.includes(pat)` helper: is `pat` a contiguous sublist of the list. -/
def subListOf [BEq α] (pat : List α) : List α → Bool
  | [] => pat.isEmpty
  | c :: rest => pat.isPrefixOf (c :: rest) || subListOf pat rest

/-- JS `s.includes(pat)`: substring containment, not anchored, not regex. -/
def strIncludes (s pat : String) : Bool := subListOf pat.data s.data

/-- JS `s.toLowerCase()` (ASCII, which covers every pattern the tool handles). -/
def strLower (s : String) : String := ⟨s.data.map Char.toLower⟩

/-- JS `s.startsWith(pre)`. -/
def strStartsWith (s pre : String) : Bool := pre.data.isPrefixOf s.data

/-- JS `s.includes(c)` for a one-character needle. -/
def strContainsChar (s : String) (c : Char) : Bool := s.data.contains c

/-- JS `s.trim()`. -/
def strTrim (s : String) : String :=
  ⟨((s.data.dropWhile Char.isWhitespace).reverse.dropWhile Char.isWhitespace).reverse⟩

/-- JS `key.split(":")` accumulator. -/
def splitOnColonAux : List Char → List Char → List String
  | [], cur => [⟨cur.reverse⟩]
  | c :: rest, cur =>
    if c = ':' then ⟨cur.reverse⟩ :: splitOnColonAux rest [] else splitOnColonAux rest (c :: cur)

/-- JS `key.split(":")`. -/
def splitColon (s : String) : List String := splitOnColonAux s.data []

theorem splitOnColonAux_no_colon (l cur : List Char) (h : l.contains ':' = false) :
    splitOnColonAux l cur = [⟨cur.reverse ++ l⟩] := by
  induction l generalizing cur with
  | nil => simp [splitOnColonAux]
  | cons c rest ih =>
    rw [List.contains_cons, Bool.or_eq_false_iff] at h
    obtain ⟨h1, h2⟩ := h
    have hc : ¬ c = ':' := by
      intro hc
      rw [hc] at h1
      simp at h1
    simp only [splitOnColonAux, if_neg hc]
    rw [ih _ h2]
    simp

theorem splitColon_runaway (pid : String) (hp : pid.data.contains ':' = false) :
    splitColon ("runaway:" ++ pid) = ["runaway", pid] := by
  unfold splitColon
  rw [String.data_append]
  show splitOnColonAux (['r','u','n','a','w','a','y',':'] ++ pid.data) [] = _
  simp [splitOnColonAux, splitOnColonAux_no_colon _ _ hp]

theorem splitColon_memory (pid : String) (hp : pid.data.contains ':' = false) :
    splitColon ("memory:" ++ pid) = ["memory", pid] := by
  unfold splitColon
  rw [String.data_append]
  show splitOnColonAux (['m','e','m','o','r','y',':'] ++ pid.data) [] = _
  simp [splitOnColonAux, splitOnColonAux_no_colon _ _ hp]

theorem splitColon_stuck (pid : String) (hp : pid.data.contains ':' = false) :
    splitColon ("stuck:" ++ pid) = ["stuck", pid] := by
  unfold splitColon
  rw [String.data_append]
  show splitOnColonAux (['s','t','u','c','k',':'] ++ pid.data) [] = _
  simp [splitOnColonAux, splitOnColonAux_no_colon _ _ hp]

theorem runaway_key_ne_swap (x : String) : "runaway:" ++ x ≠ "swap_critical" := by
  intro h
  have h2 : ("runaway:" ++ x).data = ("swap_critical" : String).data :=
    congrArg String.data h
  rw [String.data_append] at h2
  have h3 : (['r','u','n','a','w','a','y',':'] : List Char) ++ x.data
      = ['s','w','a','p','_','c','r','i','t','i','c','a','l'] := h2
  simp at h3

theorem memory_key_ne_swap (x : String) : "memory:" ++ x ≠ "swap_critical" := by
  intro h
  have h2 : ("memory:" ++ x).data = ("swap_critical" : String).data :=
    congrArg String.data h
  rw [String.data_append] at h2
  have h3 : (['m','e','m','o','r','y',':'] : List Char) ++ x.data
      = ['s','w','a','p','_','c','r','i','t','i','c','a','l'] := h2
  simp at h3

theorem stuck_key_ne_swap (x : String) : "stuck:" ++ x ≠ "swap_critical" := by
  intro h
  have h2 : ("stuck:" ++ x).data = ("swap_critical" : String).data :=
    congrArg String.data h
  rw [String.data_append] at h2
  have h3 : (['s','t','u','c','k',':'] : List Char) ++ x.data
      = ['s','w','a','p','_','c','r','i','t','i','c','a','l'] := h2
  simp at h3

/-! ### Durable state and the issue model -/

structure WatchdogState where
  lastRestartTime : Option Nat
  restartCount : Nat
  lastCheckTime : Nat
  consecutiveFailures : Nat
  knownIssues : KnownIssues
deriving DecidableEq, Repr

inductive IssueType
  | container | runaway | memory | stuck | swap
deriving DecidableEq, Repr

def IssueType.name : IssueType → String
  | .container => "container"
  | .runaway => "runaway"
  | .memory => "memory"
  | .stuck => "stuck"
  | .swap => "swap"

inductive Severity
  | critical | warning | info
deriving DecidableEq, Repr

structure Issue where
  type : IssueType
  severity : Severity
  message : String
  pid : Option String
  command : Option String
  autoKilled : Option Bool
deriving DecidableEq, Repr

/-- `getIssueKey` (src/defib.ts lines 152-156). `issue.pid` is truthy in JS
only when present and nonempty. -/
def getIssueKey (i : Issue) : String :=
  if i.type = IssueType.swap then "swap_critical"
  else
    match i.pid with
    | some p => if p.data.isEmpty then i.type.name ++ ":" ++ i.message else i.type.name ++ ":" ++ p
    | none => i.type.name ++ ":" ++ i.message

/-! ### Pattern validation (src/defib.ts lines 162-174) -/

def dangerousPatterns : List String :=
  [".", "..", "/", "\\", " ", "node", "python", "bash", "sh"]

inductive PatternError
  | tooShort (p : String)
  | dangerous (p : String)
deriving DecidableEq, Repr

def validatePatterns : List String → Except PatternError Unit
  | [] => .ok ()
  | p :: rest =>
    if p.data.isEmpty || decide (p.length < 3) then .error (.tooShort p)
    else if dangerousPatterns.contains (strLower p) then .error (.dangerous p)
    else validatePatterns rest

/-! ### Process monitor (src/defib.ts lines 575-691) -/

/-- One row of the parsed `ps` snapshot. The pid is captured by `(\d+)`,
so in any real snapshot it is a nonempty, colon-free digit string. -/
structure ProcessInfo where
  pid : String
  cpu : ℚ
  memoryMB : ℚ
  runtimeHours : ℚ
  command : String
  procState : String
deriving DecidableEq, Repr

structure ProcessConfig where
  cpuThreshold : ℚ
  memoryThresholdMB : ℚ
  maxRuntimeHours : ℚ
  safeToKillPatterns : List String
  ignorePatterns : List String
deriving DecidableEq, Repr

inductive ActionMode
  | auto | ask | deny
deriving DecidableEq, Repr

structure ActionConfig where
  restartContainer : ActionMode
  killRunaway : ActionMode
  killUnknown : ActionMode
  killSwapHog : ActionMode
  restartForSwap : ActionMode
deriving DecidableEq, Repr

def DEFAULT_ACTIONS : ActionConfig :=
  ⟨ActionMode.auto, ActionMode.auto, ActionMode.ask, ActionMode.ask, ActionMode.ask⟩

/-- Observable side effects of a monitor pass. `notif` carries the dedup key
of the issue the notification concerns (the call sites determine it). -/
inductive Event
  | killAttempt (pid : String)
  | guidance (gtype : IssueType) (pid : String)
  | composeRestart
  | notif (key : String) (title : String) (isError : Bool)
deriving DecidableEq, Repr

def Event.killPid : Event → Option String
  | .killAttempt p => some p
  | _ => none

def Event.notifKey : Event → Option String
  | .notif k _ _ => some k
  | _ => none

def Event.isGuidance : Event → Bool
  | .guidance _ _ => true
  | _ => false

/-- Loop accumulator: issues found, the live registry, effects so far. -/
structure ProcAcc where
  issues : List Issue
  known : KnownIssues
  events : List Event
deriving DecidableEq, Repr

def isIgnored (cfg : ProcessConfig) (p : ProcessInfo) : Bool :=
  cfg.ignorePatterns.any (fun q => strIncludes p.command q)

def isSafeToKill (cfg : ProcessConfig) (p : ProcessInfo) : Bool :=
  cfg.safeToKillPatterns.any (fun q => strIncludes p.command q)

/-- `proc.cpu > config.cpuThreshold && proc.runtimeHours > config.maxRuntimeHours`. -/
def runawayCond (cfg : ProcessConfig) (p : ProcessInfo) : Bool :=
  decide (cfg.cpuThreshold < p.cpu) && decide (cfg.maxRuntimeHours < p.runtimeHours)

/-- `proc.memoryMB > config.memoryThresholdMB && proc.runtimeHours > 1`. -/
def memoryCond (cfg : ProcessConfig) (p : ProcessInfo) : Bool :=
  decide (cfg.memoryThresholdMB < p.memoryMB) && decide ((1 : ℚ) < p.runtimeHours)

def runawayMode (cfg : ProcessConfig) (acts : ActionConfig) (p : ProcessInfo) : ActionMode :=
  if isSafeToKill cfg p then acts.killRunaway else acts.killUnknown

/-- `actionMode === "auto" && safeToKill`: a kill is attempted. -/
def runawayDoKill (cfg : ProcessConfig) (acts : ActionConfig) (p : ProcessInfo) : Bool :=
  (runawayMode cfg acts p == ActionMode.auto) && isSafeToKill cfg p

/-- Whether the attempted kill succeeded (`ko` is the kill collaborator). -/
def runawayKilled (cfg : ProcessConfig) (acts : ActionConfig) (ko : String → Bool)
    (p : ProcessInfo) : Bool :=
  runawayDoKill cfg acts p && ko p.pid

/-- Message text; `toFixed` numeric formatting abstracted (never feeds a key
for the nonempty pids produced by the snapshot regex). -/
def runawayMessage (p : ProcessInfo) : String :=
  "PID " ++ p.pid ++ ": high CPU"

def memoryMessage (p : ProcessInfo) : String :=
  "PID " ++ p.pid ++ ": high memory"

def runawayIssue (p : ProcessInfo) (killed : Bool) : Issue :=
  ⟨IssueType.runaway, if killed then Severity.warning else Severity.critical,
    runawayMessage p, some p.pid, some p.command, some killed⟩

def memoryIssue (p : ProcessInfo) : Issue :=
  ⟨IssueType.memory, Severity.warning, memoryMessage p, some p.pid, some p.command, none⟩

/-- Effects of the runaway section that precede the dedup check: the kill
attempt in auto mode, the guidance rendering in ask mode (lines 594-607). -/
def runawayPreEvents (cfg : ProcessConfig) (acts : ActionConfig) (p : ProcessInfo) : List Event :=
  if runawayDoKill cfg acts p then [Event.killAttempt p.pid]
  else if runawayMode cfg acts p == ActionMode.ask then [Event.guidance IssueType.runaway p.pid]
  else []

/-- Notifications of the runaway section, sent only inside the new-key
branch (lines 624-638). -/
def runawayNotifEvents (cfg : ProcessConfig) (acts : ActionConfig) (ko : String → Bool)
    (p : ProcessInfo) (key : String) : List Event :=
  if runawayKilled cfg acts ko p then [Event.notif key "Runaway Process Killed" false]
  else if runawayMode cfg acts p != ActionMode.ask then
    [Event.notif key "Runaway Process Detected" true]
  else []

/-- Runaway-CPU section of the loop body (lines 589-640). Kill attempts and
ask-mode guidance happen before the dedup check; notifications inside it. -/
def runawayCheck (cfg : ProcessConfig) (acts : ActionConfig) (ko : String → Bool)
    (now : Nat) (acc : ProcAcc) (p : ProcessInfo) : ProcAcc :=
  if runawayCond cfg p then
    let issue := runawayIssue p (runawayKilled cfg acts ko p)
    let key := getIssueKey issue
    if kiTruthy acc.known key then
      ⟨acc.issues, acc.known, acc.events ++ runawayPreEvents cfg acts p⟩
    else
      ⟨acc.issues ++ [issue], kiSet acc.known key now,
        acc.events ++ runawayPreEvents cfg acts p ++ runawayNotifEvents cfg acts ko p key⟩
  else acc

/-- Effect of the memory section inside the new-key branch (lines 657-672):
guidance when the unknown-process mode is ask, a notification otherwise. -/
def memoryNotifEvents (acts : ActionConfig) (p : ProcessInfo) (key : String) : List Event :=
  if acts.killUnknown == ActionMode.ask then [Event.guidance IssueType.memory p.pid]
  else [Event.notif key "High Memory Process" false]

/-- Memory-hog section of the loop body (lines 643-674). -/
def memoryCheck (cfg : ProcessConfig) (acts : ActionConfig) (now : Nat)
    (acc : ProcAcc) (p : ProcessInfo) : ProcAcc :=
  if memoryCond cfg p then
    let issue := memoryIssue p
    let key := getIssueKey issue
    if kiTruthy acc.known key then acc
    else
      ⟨acc.issues ++ [issue], kiSet acc.known key now,
        acc.events ++ memoryNotifEvents acts p key⟩
  else acc

/-- One iteration of `for (const proc of processes)`: the ignore-pattern
check `continue`s past both the runaway and the memory check. -/
def processStep (cfg : ProcessConfig) (acts : ActionConfig) (ko : String → Bool)
    (now : Nat) (acc : ProcAcc) (p : ProcessInfo) : ProcAcc :=
  if isIgnored cfg p then acc
  else memoryCheck cfg acts now (runawayCheck cfg acts ko now acc p) p

def procLoop (cfg : ProcessConfig) (acts : ActionConfig) (ko : String → Bool)
    (now : Nat) : List ProcessInfo → ProcAcc → ProcAcc
  | [], acc => acc
  | p :: rest, acc => procLoop cfg acts ko now rest (processStep cfg acts ko now acc p)

/-- Cleanup predicate (lines 679-684): `const pid = key.split(":")[1];
if (pid && !currentPids.has(pid)) delete ...`. -/
def shouldDelete (k : String) (pids : List String) : Bool :=
  match (splitColon k).get? 1 with
  | some p => !p.data.isEmpty && !(pids.contains p)
  | none => false

def cleanup : KnownIssues → List String → KnownIssues
  | [], _ => []
  | e :: rest, pids =>
    if shouldDelete e.1 pids then cleanup rest pids else e :: cleanup rest pids

structure ProcRun where
  issues : List Issue
  state : WatchdogState
  events : List Event
deriving DecidableEq, Repr

/-- `monitorProcesses` (lines 575-691); the snapshot and the kill outcome are
oracle parameters; a failed snapshot command yields the empty snapshot. -/
def monitorProcesses (cfg : ProcessConfig) (acts : ActionConfig) (ko : String → Bool)
    (now : Nat) (procs : List ProcessInfo) (s : WatchdogState) : ProcRun :=
  let acc := procLoop cfg acts ko now procs ⟨[], s.knownIssues, []⟩
  ⟨acc.issues,
    { s with knownIssues := cleanup acc.known (procs.map (fun p => p.pid)) },
    acc.events⟩

/-- The value `getProcessList` returns when the `ps` subprocess fails
(lines 568-572: the error is logged and the accumulated empty list returned). -/
def getProcessListFailure : List ProcessInfo := []

/-- The `dismiss` command's state update (lines 973-994): pre-register the
three pid-keyed issue kinds for the given pid; the state is then saved
immediately (`saveState`, an I/O step outside the pure core). -/
def dismiss (s : WatchdogState) (pid : String) (now : Nat) : WatchdogState :=
  { s with
    knownIssues :=
      kiSet (kiSet (kiSet s.knownIssues ("runaway:" ++ pid) now)
        ("memory:" ++ pid) now) ("stuck:" ++ pid) now }

/-! ### Container monitor (src/defib.ts lines 472-528) -/

structure ContainerConfig where
  healthUrl : String
  composeDir : String
  timeoutSeconds : ℚ
  maxResponseSeconds : ℚ
  backoffMinutes : ℚ
  serviceName : Option String
deriving DecidableEq, Repr

/-- Health-probe collaborator result (spec section 6). -/
structure HealthResult where
  healthy : Bool
  responseTime : ℚ
  error : String
deriving DecidableEq, Repr

/-- The backoff guard (lines 480-487): `if (state.lastRestartTime)` is a JS
truthiness test, so `null` and `0` both skip the guard; inside it,
`(now - lastRestartTime) / 1000 / 60 < backoffMinutes` short-circuits the
whole invocation. -/
def backoffActive (cfg : ContainerConfig) (s : WatchdogState) (now : Nat) : Bool :=
  match s.lastRestartTime with
  | none => false
  | some t => t != 0 && decide (((now : ℚ) - (t : ℚ)) / 1000 / 60 < cfg.backoffMinutes)

structure ContainerRun where
  issues : List Issue
  state : WatchdogState
  probed : Bool
  restartAttempted : Bool
  notifications : List (String × Bool)
deriving DecidableEq, Repr

def containerFailIssue (health : HealthResult) : Issue :=
  ⟨IssueType.container, Severity.critical, "Container restart failed: " ++ health.error,
    none, none, none⟩

/-- `monitorContainer` (lines 472-528). The health probe and the restart
command (which re-probes internally) are oracle parameters; `probed` and
`restartAttempted` record whether those collaborators were invoked. -/
def monitorContainer (cfg : ContainerConfig) (s : WatchdogState) (now : Nat)
    (health : HealthResult) (restartOk : Bool) : ContainerRun :=
  if backoffActive cfg s now then ⟨[], s, false, false, []⟩
  else if health.healthy then
    ⟨[], { s with restartCount := 0, consecutiveFailures := 0 }, true, false, []⟩
  else
    let s1 := { s with consecutiveFailures := s.consecutiveFailures + 1 }
    let s2 := { s1 with lastRestartTime := some now, restartCount := s1.restartCount + 1 }
    if restartOk then
      ⟨[], { s2 with consecutiveFailures := 0 }, true, true, [("Container Restarted", false)]⟩
    else
      ⟨[containerFailIssue health], s2, true, true, [("Container Restart FAILED", true)]⟩

/-- One scheduled invocation of the container monitor, as seen by `main`. -/
structure ContInput where
  now : Nat
  health : HealthResult
  restartOk : Bool
deriving DecidableEq, Repr

/-- A sequence of container-monitor invocations threading the persisted
state; the second component collects the times of the restart attempts. -/
def runContainer (cfg : ContainerConfig) : List ContInput → WatchdogState → WatchdogState × List Nat
  | [], s => (s, [])
  | i :: rest, s =>
    let r := monitorContainer cfg s i.now i.health i.restartOk
    let rec2 := runContainer cfg rest r.state
    (rec2.1, (if r.restartAttempted then [i.now] else []) ++ rec2.2)

/-! ### System monitor (src/defib.ts lines 697-840) -/

structure SystemConfig where
  swapThreshold : ℚ
  checkDState : Bool
  swapKillPatterns : List String
  swapRestartCompose : Option (String × Option String)
deriving DecidableEq, Repr

/-- `total > 0 ? (used / total) * 100 : 0` (line 711). -/
def swapPercentOf (total used : Nat) : ℚ :=
  if 0 < total then ((used : ℚ) / (total : ℚ)) * 100 else 0

def swapMessage (total used : Nat) : String :=
  "Swap usage: " ++ toString used ++ "MB / " ++ toString total ++ "MB"

def swapIssueOf (total used : Nat) : Issue :=
  ⟨IssueType.swap, Severity.critical, swapMessage total used, none, none, none⟩

/-- Processes whose command matches a `swapKillPatterns` entry; the snapshot
is only taken when the pattern list is nonempty (line 723). -/
def swapMatched (cfg : SystemConfig) (procs : List ProcessInfo) : List ProcessInfo :=
  if cfg.swapKillPatterns.isEmpty then []
  else procs.filter (fun p => cfg.swapKillPatterns.any (fun q => strIncludes p.command q))

/-- Number of successful kills (`killed.length`). -/
def swapKilledCount (cfg : SystemConfig) (procs : List ProcessInfo) (ko : String → Bool) : Nat :=
  ((swapMatched cfg procs).filter (fun p => ko p.pid)).length

/-- Whether the compose restart is attempted (config present and a runtime
was detected) — `restarted` is then the collaborator's success. -/
def swapRestartTried (cfg : SystemConfig) (runtimeAvailable : Bool) : Bool :=
  cfg.swapRestartCompose.isSome && runtimeAvailable

/-- `killed.length > 0 || restarted`: some remediation actually happened. -/
def swapRemediated (cfg : SystemConfig) (procs : List ProcessInfo) (ko : String → Bool)
    (restartOk rt : Bool) : Bool :=
  decide (0 < swapKilledCount cfg procs ko) || (swapRestartTried cfg rt && restartOk)

/-- The notification of the above-threshold branch (lines 760-777): sent
iff the issue is new or a kill/restart occurred; title and error flag
depend on whether remediation happened. -/
def swapNotifEvents (cfg : SystemConfig) (known : KnownIssues) (procs : List ProcessInfo)
    (ko : String → Bool) (restartOk rt : Bool) : List Event :=
  if !(kiTruthy known "swap_critical") || swapRemediated cfg procs ko restartOk rt then
    [Event.notif "swap_critical"
      (if swapRemediated cfg procs ko restartOk rt then "Swap Critical - Auto-Remediated"
       else "Swap Pressure Critical")
      (!swapRemediated cfg procs ko restartOk rt)]
  else []

/-- Swap-pressure section of `monitorSystem` (lines 706-790). Returns issues,
the updated registry and the events. `swapReading = none` models both a
failed `free -m` call and a non-matching output (either way the section is
skipped). -/
def swapSection (cfg : SystemConfig) (known : KnownIssues) (now : Nat)
    (swapReading : Option (Nat × Nat)) (procs : List ProcessInfo) (ko : String → Bool)
    (restartOk : Bool) (runtimeAvailable : Bool) : List Issue × KnownIssues × List Event :=
  match swapReading with
  | none => ([], known, [])
  | some (total, used) =>
    if cfg.swapThreshold < swapPercentOf total used then
      ([swapIssueOf total used],
        (if !(kiTruthy known "swap_critical") then kiSet known "swap_critical" now else known),
        (swapMatched cfg procs).map (fun p => Event.killAttempt p.pid)
          ++ (if swapRestartTried cfg runtimeAvailable then [Event.composeRestart] else [])
          ++ swapNotifEvents cfg known procs ko restartOk runtimeAvailable)
    else if kiTruthy known "swap_critical" then
      ([], kiDelete known "swap_critical",
        [Event.notif "swap_critical" "Swap Pressure Resolved" false])
    else ([], known, [])

/-- One regex-matched D-state `ps` line (pid, etime, command). -/
structure DProc where
  pid : String
  etime : String
  command : String
deriving DecidableEq, Repr

def stuckMessage (d : DProc) : String :=
  "PID " ++ d.pid ++ ": Stuck in D-state for " ++ d.etime

def stuckIssue (d : DProc) : Issue :=
  ⟨IssueType.stuck, Severity.warning, stuckMessage d, some d.pid, some (strTrim d.command), none⟩

/-- D-state loop body (lines 798-828). -/
def dstateStep (now : Nat) (acc : ProcAcc) (d : DProc) : ProcAcc :=
  if !(strContainsChar d.etime ':') || strStartsWith d.etime "00:0" then acc
  else if strIncludes d.command "kworker/" || strIncludes d.command "jbd2/" then acc
  else
    let issue := stuckIssue d
    let key := getIssueKey issue
    if kiTruthy acc.known key then acc
    else
      ⟨acc.issues ++ [issue], kiSet acc.known key now,
        acc.events ++ [Event.notif key "Stuck Process Detected" false]⟩

def dstateLoop (now : Nat) : List DProc → ProcAcc → ProcAcc
  | [], acc => acc
  | d :: rest, acc => dstateLoop now rest (dstateStep now acc d)

structure SystemRun where
  issues : List Issue
  state : WatchdogState
  events : List Event
deriving DecidableEq, Repr

/-- `monitorSystem` (lines 697-840): swap section then optional D-state scan. -/
def monitorSystem (cfg : SystemConfig) (s : WatchdogState) (now : Nat)
    (swapReading : Option (Nat × Nat)) (procs : List ProcessInfo) (ko : String → Bool)
    (restartOk : Bool) (runtimeAvailable : Bool) (dprocs : List DProc) : SystemRun :=
  let sw := swapSection cfg s.knownIssues now swapReading procs ko restartOk runtimeAvailable
  let acc0 : ProcAcc := ⟨sw.1, sw.2.1, sw.2.2⟩
  let acc1 := if cfg.checkDState then dstateLoop now dprocs acc0 else acc0
  ⟨acc1.issues, { s with knownIssues := acc1.known }, acc1.events⟩

/-! ### Key-shape lemmas -/

theorem runaway_key_ne_memory (x y : String) :
    "runaway:" ++ x ≠ "memory:" ++ y := by
  intro h
  have h2 : ("runaway:" ++ x).data = ("memory:" ++ y).data :=
    congrArg String.data h
  rw [String.data_append, String.data_append] at h2
  have h3 : (['r','u','n','a','w','a','y',':'] : List Char) ++ x.data
      = ['m','e','m','o','r','y',':'] ++ y.data := h2
  simp at h3

theorem runaway_key_ne_stuck (x y : String) :
    "runaway:" ++ x ≠ "stuck:" ++ y := by
  intro h
  have h2 : ("runaway:" ++ x).data = ("stuck:" ++ y).data :=
    congrArg String.data h
  rw [String.data_append, String.data_append] at h2
  have h3 : (['r','u','n','a','w','a','y',':'] : List Char) ++ x.data
      = ['s','t','u','c','k',':'] ++ y.data := h2
  simp at h3

theorem memory_key_ne_stuck (x y : String) :
    "memory:" ++ x ≠ "stuck:" ++ y := by
  intro h
  have h2 : ("memory:" ++ x).data = ("stuck:" ++ y).data :=
    congrArg String.data h
  rw [String.data_append, String.data_append] at h2
  have h3 : (['m','e','m','o','r','y',':'] : List Char) ++ x.data
      = ['s','t','u','c','k',':'] ++ y.data := h2
  simp at h3

theorem getIssueKey_runawayIssue (p : ProcessInfo) (killed : Bool) :
    ∃ x, getIssueKey (runawayIssue p killed) = "runaway:" ++ x := by
  by_cases h : p.pid.data.isEmpty
  · exact ⟨runawayMessage p, by simp [getIssueKey, runawayIssue, IssueType.name, h]⟩
  · exact ⟨p.pid, by simp [getIssueKey, runawayIssue, IssueType.name, h]⟩

theorem getIssueKey_memoryIssue (p : ProcessInfo) :
    ∃ x, getIssueKey (memoryIssue p) = "memory:" ++ x := by
  by_cases h : p.pid.data.isEmpty
  · exact ⟨memoryMessage p, by simp [getIssueKey, memoryIssue, IssueType.name, h]⟩
  · exact ⟨p.pid, by simp [getIssueKey, memoryIssue, IssueType.name, h]⟩

theorem getIssueKey_stuckIssue (d : DProc) :
    ∃ x, getIssueKey (stuckIssue d) = "stuck:" ++ x := by
  by_cases h : d.pid.data.isEmpty
  · exact ⟨stuckMessage d, by simp [getIssueKey, stuckIssue, IssueType.name, h]⟩
  · exact ⟨d.pid, by simp [getIssueKey, stuckIssue, IssueType.name, h]⟩

theorem getIssueKey_runawayIssue_pid (p : ProcessInfo) (killed : Bool)
    (h : p.pid.data.isEmpty = false) :
    getIssueKey (runawayIssue p killed) = "runaway:" ++ p.pid := by
  simp [getIssueKey, runawayIssue, IssueType.name, h]

theorem getIssueKey_memoryIssue_pid (p : ProcessInfo) (h : p.pid.data.isEmpty = false) :
    getIssueKey (memoryIssue p) = "memory:" ++ p.pid := by
  simp [getIssueKey, memoryIssue, IssueType.name, h]

/-! ### Claim C8 — pattern validation -/

theorem validatePatterns_ok_iff (ps : List String) :
    validatePatterns ps = Except.ok () ↔
      ∀ p ∈ ps, 3 ≤ p.length ∧ dangerousPatterns.contains (strLower p) = false := by
  induction ps with
  | nil => simp [validatePatterns]
  | cons p rest ih =>
    by_cases h1 : p.data.isEmpty || decide (p.length < 3)
    · have hlen : p.length < 3 := by
        rcases Bool.or_eq_true_iff.mp h1 with he | hd
        · have : p.data = [] := by simpa using he
          simp [String.length, this]
        · simpa using hd
      simp only [validatePatterns, if_pos h1]
      constructor
      · intro hc
        exact absurd hc (by simp)
      · intro hall
        have := (hall p (by simp)).1
        omega
    · by_cases h2 : dangerousPatterns.contains (strLower p)
      · simp only [validatePatterns, if_neg h1, if_pos h2]
        constructor
        · intro hc
          exact absurd hc (by simp)
        · intro hall
          have := (hall p (by simp)).2
          rw [h2] at this
          exact absurd this (by simp)
      · have hgood : 3 ≤ p.length ∧ dangerousPatterns.contains (strLower p) = false := by
          refine ⟨?_, Bool.eq_false_iff.mpr h2⟩
          have hnl : ¬ p.length < 3 := fun hlt => h1 (by simp [hlt])
          omega
        simp only [validatePatterns, if_neg h1, if_neg h2]
        rw [ih]
        constructor
        · intro hall q hq
          rcases List.mem_cons.mp hq with rfl | hq'
          · exact hgood
          · exact hall q hq'
        · intro hall q hq
          exact hall q (List.mem_cons_of_mem _ hq)

/-- C8: `validatePatterns` rejects every list containing a pattern shorter
than 3 characters (the empty string included) or whose lower-cased form is
on the fixed deny-list, and accepts every list all of whose patterns are at
least 3 characters long and off the deny-list (such as `"workerX"`). -/
theorem claim_C8 (ps : List String) :
    (validatePatterns ps = Except.ok () ↔
      ∀ p ∈ ps, 3 ≤ p.length ∧ dangerousPatterns.contains (strLower p) = false)
    ∧ ((∃ e, validatePatterns ps = Except.error e) ↔
      ∃ p ∈ ps, p.length < 3 ∨ dangerousPatterns.contains (strLower p) = true) := by
  refine ⟨validatePatterns_ok_iff ps, ?_⟩
  constructor
  · intro ⟨e, he⟩
    by_contra hc
    push_neg at hc
    have hall : ∀ p ∈ ps, 3 ≤ p.length ∧ dangerousPatterns.contains (strLower p) = false := by
      intro p hp
      have := hc p hp
      exact ⟨by omega, by
        cases hcc : dangerousPatterns.contains (strLower p)
        · rfl
        · exact absurd hcc this.2⟩
    rw [(validatePatterns_ok_iff ps).mpr hall] at he
    exact Except.noConfusion he
  · intro ⟨p, hp, hbad⟩
    cases hv : validatePatterns ps with
    | error e => exact ⟨e, rfl⟩
    | ok u =>
      cases u
      have := ((validatePatterns_ok_iff ps).mp hv) p hp
      rcases hbad with hlen | hdang
      · omega
      · rw [this.2] at hdang
        exact Bool.noConfusion hdang

/-- C8 witness: `["workerX"]` validates; `["ab"]` and `["NODE"]` fail. -/
theorem claim_C8_witness :
    (validatePatterns ["workerX"] = Except.ok () ↔
      ∀ p ∈ ["workerX"], 3 ≤ p.length ∧ dangerousPatterns.contains (strLower p) = false)
    ∧ ((∃ e, validatePatterns ["workerX"] = Except.error e) ↔
      ∃ p ∈ ["workerX"], p.length < 3 ∨ dangerousPatterns.contains (strLower p) = true) :=
  claim_C8 ["workerX"]

/-! ### Claim C7 — the dismiss operation -/

/-- C7 counterexample: `dismiss` does not insert a `container:` or `swap:`
key for the pid, so it does not cover "every known issue type". -/
theorem claim_C7_counterexample :
    kiLookup (dismiss ⟨none, 0, 0, 0, []⟩ "5" 77).knownIssues ("container:" ++ "5") = none
    ∧ kiLookup (dismiss ⟨none, 0, 0, 0, []⟩ "5" 77).knownIssues ("swap:" ++ "5") = none
    ∧ kiLookup (dismiss ⟨none, 0, 0, 0, []⟩ "5" 77).knownIssues "swap_critical" = none := by
  decide

/-- C7 (amended): the dismiss operation inserts the keys `"{type}:{pid}"`
for exactly the three pid-keyed issue types — runaway, memory and stuck —
with the current timestamp (container and swap issues are not keyed by pid
and get no entry), leaves every other registry entry unchanged, touches no
other state field, and the state is then persisted immediately. -/
theorem claim_C7 (s : WatchdogState) (pid : String) (now : Nat) :
    kiLookup (dismiss s pid now).knownIssues ("runaway:" ++ pid) = some now
    ∧ kiLookup (dismiss s pid now).knownIssues ("memory:" ++ pid) = some now
    ∧ kiLookup (dismiss s pid now).knownIssues ("stuck:" ++ pid) = some now
    ∧ (∀ k, k ≠ "runaway:" ++ pid → k ≠ "memory:" ++ pid →
        k ≠ "stuck:" ++ pid →
        kiLookup (dismiss s pid now).knownIssues k = kiLookup s.knownIssues k)
    ∧ (dismiss s pid now).lastRestartTime = s.lastRestartTime
    ∧ (dismiss s pid now).restartCount = s.restartCount
    ∧ (dismiss s pid now).consecutiveFailures = s.consecutiveFailures := by
  refine ⟨?_, ?_, ?_, ?_, rfl, rfl, rfl⟩
  · rw [dismiss]
    dsimp only
    rw [kiLookup_kiSet_of_ne _ _ (runaway_key_ne_stuck pid pid),
      kiLookup_kiSet_of_ne _ _ (runaway_key_ne_memory pid pid),
      kiLookup_kiSet_self]
  · rw [dismiss]
    dsimp only
    rw [kiLookup_kiSet_of_ne _ _ (memory_key_ne_stuck pid pid),
      kiLookup_kiSet_self]
  · rw [dismiss]
    dsimp only
    rw [kiLookup_kiSet_self]
  · intro k h1 h2 h3
    rw [dismiss]
    dsimp only
    rw [kiLookup_kiSet_of_ne _ _ h3, kiLookup_kiSet_of_ne _ _ h2,
      kiLookup_kiSet_of_ne _ _ h1]

/-- C7 witness at a concrete state and pid. -/
theorem claim_C7_witness :
    kiLookup (dismiss ⟨none, 0, 0, 0, [("other:9", 3)]⟩ "5" 77).knownIssues
        ("runaway:" ++ "5") = some 77
    ∧ kiLookup (dismiss ⟨none, 0, 0, 0, [("other:9", 3)]⟩ "5" 77).knownIssues "other:9"
        = kiLookup [("other:9", 3)] "other:9" :=
  ⟨(claim_C7 ⟨none, 0, 0, 0, [("other:9", 3)]⟩ "5" 77).1,
    (claim_C7 ⟨none, 0, 0, 0, [("other:9", 3)]⟩ "5" 77).2.2.2.1 "other:9"
      (by decide) (by decide) (by decide)⟩

/-! ### Cleanup characterization and swap-key preservation -/

theorem kiTruthy_some (m : KnownIssues) (k : String) (h : kiTruthy m k = true) :
    ∃ v, kiLookup m k = some v := by
  unfold kiTruthy at h
  cases hv : kiLookup m k with
  | none => rw [hv] at h; exact Bool.noConfusion h
  | some v => exact ⟨v, rfl⟩

theorem kiLookup_cleanup (m : KnownIssues) (pids : List String) (k : String) :
    kiLookup (cleanup m pids) k = if shouldDelete k pids then none else kiLookup m k := by
  induction m with
  | nil => cases h : shouldDelete k pids <;> simp [cleanup, kiLookup, h]
  | cons e rest ih =>
    by_cases hd : shouldDelete e.1 pids
    · by_cases he : e.1 = k
      · rw [← he] at ih ⊢
        simp only [cleanup, if_pos hd, ih, if_pos hd]
      · simp only [cleanup, if_pos hd, ih, kiLookup, if_neg he]
    · by_cases he : e.1 = k
      · rw [← he] at ih ⊢
        simp [cleanup, if_neg hd, kiLookup]
      · simp only [cleanup, if_neg hd, kiLookup, if_neg he, ih]

theorem shouldDelete_swap_critical (pids : List String) :
    shouldDelete "swap_critical" pids = false := rfl

theorem runawayCheck_preserves_swap (cfg : ProcessConfig) (acts : ActionConfig)
    (ko : String → Bool) (now : Nat) (acc : ProcAcc) (p : ProcessInfo) :
    kiLookup (runawayCheck cfg acts ko now acc p).known "swap_critical"
      = kiLookup acc.known "swap_critical" := by
  obtain ⟨x, hx⟩ := getIssueKey_runawayIssue p (runawayKilled cfg acts ko p)
  unfold runawayCheck
  split
  · dsimp only
    split
    · rfl
    · dsimp only
      rw [hx, kiLookup_kiSet_of_ne _ _ (Ne.symm (runaway_key_ne_swap x))]
  · rfl

theorem memoryCheck_preserves_swap (cfg : ProcessConfig) (acts : ActionConfig)
    (now : Nat) (acc : ProcAcc) (p : ProcessInfo) :
    kiLookup (memoryCheck cfg acts now acc p).known "swap_critical"
      = kiLookup acc.known "swap_critical" := by
  obtain ⟨x, hx⟩ := getIssueKey_memoryIssue p
  unfold memoryCheck
  split
  · dsimp only
    split
    · rfl
    · dsimp only
      rw [hx, kiLookup_kiSet_of_ne _ _ (Ne.symm (memory_key_ne_swap x))]
  · rfl

theorem processStep_preserves_swap (cfg : ProcessConfig) (acts : ActionConfig)
    (ko : String → Bool) (now : Nat) (acc : ProcAcc) (p : ProcessInfo) :
    kiLookup (processStep cfg acts ko now acc p).known "swap_critical"
      = kiLookup acc.known "swap_critical" := by
  unfold processStep
  split
  · rfl
  · rw [memoryCheck_preserves_swap, runawayCheck_preserves_swap]

theorem procLoop_preserves_swap (cfg : ProcessConfig) (acts : ActionConfig)
    (ko : String → Bool) (now : Nat) (procs : List ProcessInfo) :
    ∀ acc, kiLookup (procLoop cfg acts ko now procs acc).known "swap_critical"
      = kiLookup acc.known "swap_critical" := by
  induction procs with
  | nil => intro acc; rfl
  | cons p rest ih =>
    intro acc
    show kiLookup (procLoop cfg acts ko now rest (processStep cfg acts ko now acc p)).known
        "swap_critical" = _
    rw [ih, processStep_preserves_swap]

theorem dstateStep_preserves_swap (now : Nat) (acc : ProcAcc) (d : DProc) :
    kiLookup (dstateStep now acc d).known "swap_critical"
      = kiLookup acc.known "swap_critical" := by
  obtain ⟨x, hx⟩ := getIssueKey_stuckIssue d
  unfold dstateStep
  split
  · rfl
  · split
    · rfl
    · dsimp only
      split
      · rfl
      · dsimp only
        rw [hx, kiLookup_kiSet_of_ne _ _ (Ne.symm (stuck_key_ne_swap x))]

theorem dstateLoop_preserves_swap (now : Nat) (dprocs : List DProc) :
    ∀ acc, kiLookup (dstateLoop now dprocs acc).known "swap_critical"
      = kiLookup acc.known "swap_critical" := by
  induction dprocs with
  | nil => intro acc; rfl
  | cons d rest ih =>
    intro acc
    show kiLookup (dstateLoop now rest (dstateStep now acc d)).known "swap_critical" = _
    rw [ih, dstateStep_preserves_swap]

/-! ### Claim C9 — cleanup touches only pid-keyed entries -/

/-- C9: the cleanup pass deletes exactly the keys whose segment after the
first `:` is nonempty and not a pid of the current snapshot; the singleton
key `"swap_critical"` has no `:` and is never deleted — the process monitor
leaves its binding untouched, and the system monitor removes it only on the
not-above-threshold path (with the swap reading present). -/
theorem claim_C9 (m : KnownIssues) (pids : List String) (k : String)
    (cfg : ProcessConfig) (acts : ActionConfig) (ko : String → Bool) (now : Nat)
    (procs : List ProcessInfo) (s : WatchdogState)
    (scfg : SystemConfig) (s2 : WatchdogState) (now2 : Nat)
    (swapReading : Option (Nat × Nat)) (procs2 : List ProcessInfo) (ko2 : String → Bool)
    (restartOk : Bool) (rt : Bool) (dprocs : List DProc) :
    (kiLookup (cleanup m pids) k = if shouldDelete k pids then none else kiLookup m k)
    ∧ shouldDelete "swap_critical" pids = false
    ∧ kiLookup (monitorProcesses cfg acts ko now procs s).state.knownIssues "swap_critical"
        = kiLookup s.knownIssues "swap_critical"
    ∧ (kiTruthy s2.knownIssues "swap_critical" = true →
       kiLookup (monitorSystem scfg s2 now2 swapReading procs2 ko2 restartOk rt
           dprocs).state.knownIssues "swap_critical" = none →
       ∃ total used, swapReading = some (total, used)
         ∧ ¬ scfg.swapThreshold < swapPercentOf total used) := by
  refine ⟨kiLookup_cleanup m pids k, shouldDelete_swap_critical pids, ?_, ?_⟩
  · show kiLookup (cleanup (procLoop cfg acts ko now procs
        ⟨[], s.knownIssues, []⟩).known (procs.map (fun p => p.pid))) "swap_critical" = _
    rw [kiLookup_cleanup, shouldDelete_swap_critical, if_neg (by simp),
      procLoop_preserves_swap]
  · intro htruthy hnone
    obtain ⟨v, hv⟩ := kiTruthy_some _ _ htruthy
    have hd : ∀ acc : ProcAcc,
        kiLookup ((if scfg.checkDState then dstateLoop now2 dprocs acc else acc)).known
          "swap_critical" = kiLookup acc.known "swap_critical" := by
      intro acc
      split
      · exact dstateLoop_preserves_swap now2 dprocs acc
      · rfl
    unfold monitorSystem at hnone
    dsimp only at hnone
    rw [hd] at hnone
    cases hsr : swapReading with
    | none =>
      rw [hsr] at hnone
      unfold swapSection at hnone
      dsimp only at hnone
      rw [hv] at hnone
      exact Option.noConfusion hnone
    | some tu =>
      obtain ⟨total, used⟩ := tu
      refine ⟨total, used, rfl, ?_⟩
      intro habove
      rw [hsr] at hnone
      unfold swapSection at hnone
      dsimp only at hnone
      rw [if_pos habove] at hnone
      dsimp only at hnone
      rw [htruthy] at hnone
      simp only [Bool.not_true, Bool.false_eq_true, if_false] at hnone
      rw [hv] at hnone
      exact Option.noConfusion hnone

/-- C9 witness: concrete registry, pid list, process pass and a
below-threshold system pass (zero swap total, so the percentage is 0). -/
theorem claim_C9_witness :
    (kiLookup (cleanup [("runaway:12", 4), ("swap_critical", 5)] ["7"]) "runaway:12"
      = if shouldDelete "runaway:12" ["7"] then none
        else kiLookup [("runaway:12", 4), ("swap_critical", 5)] "runaway:12")
    ∧ shouldDelete "swap_critical" ["7"] = false
    ∧ kiLookup (monitorProcesses ⟨80, 2000, 2, [], []⟩ DEFAULT_ACTIONS (fun _ => true) 77 []
        ⟨none, 0, 0, 0, [("swap_critical", 5)]⟩).state.knownIssues "swap_critical"
        = kiLookup ([("swap_critical", 5)] : KnownIssues) "swap_critical"
    ∧ (∃ total used, (some (0, 50) : Option (Nat × Nat)) = some (total, used)
        ∧ ¬ (80 : ℚ) < swapPercentOf total used) := by
  have h := claim_C9 [("runaway:12", 4), ("swap_critical", 5)] ["7"] "runaway:12"
    ⟨80, 2000, 2, [], []⟩ DEFAULT_ACTIONS (fun _ => true) 77 []
    ⟨none, 0, 0, 0, [("swap_critical", 5)]⟩
    ⟨80, false, [], none⟩ ⟨none, 0, 0, 0, [("swap_critical", 5)]⟩ 99 (some (0, 50)) []
    (fun _ => true) true false []
  refine ⟨h.1, h.2.1, h.2.2.1, h.2.2.2 (by decide) ?_⟩
  show kiLookup (monitorSystem ⟨80, false, [], none⟩ ⟨none, 0, 0, 0, [("swap_critical", 5)]⟩
      99 (some (0, 50)) [] (fun _ => true) true false []).state.knownIssues "swap_critical" = none
  decide

/-! ### Claim C10 — empty snapshot clears every pid-keyed entry -/

/-- C10: when the process-snapshot command fails, `getProcessList` returns
the empty list; the process monitor run on it emits no issues and no
effects, and its cleanup pass deletes exactly the entries whose key has a
nonempty segment after the first `:` — in particular every
`runaway:`/`memory:`/`stuck:` pid key becomes falsy again, so each such
issue re-alerts on the next successful scan. -/
theorem claim_C10 (cfg : ProcessConfig) (acts : ActionConfig) (ko : String → Bool)
    (now : Nat) (s : WatchdogState) :
    (monitorProcesses cfg acts ko now getProcessListFailure s).issues = []
    ∧ (monitorProcesses cfg acts ko now getProcessListFailure s).events = []
    ∧ (∀ k, kiLookup (monitorProcesses cfg acts ko now
          getProcessListFailure s).state.knownIssues k
        = if shouldDelete k [] then none else kiLookup s.knownIssues k)
    ∧ ∀ pid : String, pid.data.isEmpty = false → pid.data.contains ':' = false →
        kiTruthy (monitorProcesses cfg acts ko now getProcessListFailure s).state.knownIssues
          ("runaway:" ++ pid) = false
        ∧ kiTruthy (monitorProcesses cfg acts ko now getProcessListFailure s).state.knownIssues
          ("memory:" ++ pid) = false
        ∧ kiTruthy (monitorProcesses cfg acts ko now getProcessListFailure s).state.knownIssues
          ("stuck:" ++ pid) = false := by
  have hrun : monitorProcesses cfg acts ko now getProcessListFailure s
      = ⟨[], { s with knownIssues := cleanup s.knownIssues [] }, []⟩ := rfl
  refine ⟨by rw [hrun], by rw [hrun], ?_, ?_⟩
  · intro k
    rw [hrun]
    exact kiLookup_cleanup s.knownIssues [] k
  · intro pid hne hcolon
    have hg1 : shouldDelete ("runaway:" ++ pid) [] = true := by
      unfold shouldDelete
      rw [splitColon_runaway pid hcolon]
      simp [hne]
    have hg2 : shouldDelete ("memory:" ++ pid) [] = true := by
      unfold shouldDelete
      rw [splitColon_memory pid hcolon]
      simp [hne]
    have hg3 : shouldDelete ("stuck:" ++ pid) [] = true := by
      unfold shouldDelete
      rw [splitColon_stuck pid hcolon]
      simp [hne]
    rw [hrun]
    dsimp only
    refine ⟨?_, ?_, ?_⟩
    · rw [kiTruthy, kiLookup_cleanup, if_pos hg1]
    · rw [kiTruthy, kiLookup_cleanup, if_pos hg2]
    · rw [kiTruthy, kiLookup_cleanup, if_pos hg3]

/-- C10 witness: a registry holding pid keys for pid 12 is emptied of them
by a run on the failed (empty) snapshot. -/
theorem claim_C10_witness :
    (monitorProcesses ⟨80, 2000, 2, [], []⟩ DEFAULT_ACTIONS (fun _ => true) 77
      getProcessListFailure ⟨none, 0, 0, 0, [("runaway:12", 4), ("swap_critical", 5)]⟩).issues = []
    ∧ kiTruthy (monitorProcesses ⟨80, 2000, 2, [], []⟩ DEFAULT_ACTIONS (fun _ => true) 77
        getProcessListFailure
        ⟨none, 0, 0, 0, [("runaway:12", 4), ("swap_critical", 5)]⟩).state.knownIssues
      ("runaway:" ++ "12") = false :=
  ⟨(claim_C10 ⟨80, 2000, 2, [], []⟩ DEFAULT_ACTIONS (fun _ => true) 77
      ⟨none, 0, 0, 0, [("runaway:12", 4), ("swap_critical", 5)]⟩).1,
    ((claim_C10 ⟨80, 2000, 2, [], []⟩ DEFAULT_ACTIONS (fun _ => true) 77
      ⟨none, 0, 0, 0, [("runaway:12", 4), ("swap_critical", 5)]⟩).2.2.2 "12"
      (by decide) (by decide)).1⟩

/-! ### Branch characterizations of the loop body -/

theorem runawayCheck_eq_of_not_cond (cfg : ProcessConfig) (acts : ActionConfig)
    (ko : String → Bool) (now : Nat) (acc : ProcAcc) (p : ProcessInfo)
    (h : runawayCond cfg p = false) :
    runawayCheck cfg acts ko now acc p = acc := by
  unfold runawayCheck
  rw [if_neg (by simp [h])]

theorem runawayCheck_eq_known (cfg : ProcessConfig) (acts : ActionConfig)
    (ko : String → Bool) (now : Nat) (acc : ProcAcc) (p : ProcessInfo)
    (hcond : runawayCond cfg p = true)
    (ht : kiTruthy acc.known
      (getIssueKey (runawayIssue p (runawayKilled cfg acts ko p))) = true) :
    runawayCheck cfg acts ko now acc p
      = ⟨acc.issues, acc.known, acc.events ++ runawayPreEvents cfg acts p⟩ := by
  unfold runawayCheck
  rw [if_pos hcond]
  dsimp only
  rw [if_pos ht]

theorem runawayCheck_eq_new (cfg : ProcessConfig) (acts : ActionConfig)
    (ko : String → Bool) (now : Nat) (acc : ProcAcc) (p : ProcessInfo)
    (hcond : runawayCond cfg p = true)
    (hf : kiTruthy acc.known
      (getIssueKey (runawayIssue p (runawayKilled cfg acts ko p))) = false) :
    runawayCheck cfg acts ko now acc p
      = ⟨acc.issues ++ [runawayIssue p (runawayKilled cfg acts ko p)],
        kiSet acc.known (getIssueKey (runawayIssue p (runawayKilled cfg acts ko p))) now,
        acc.events ++ runawayPreEvents cfg acts p
          ++ runawayNotifEvents cfg acts ko p
            (getIssueKey (runawayIssue p (runawayKilled cfg acts ko p)))⟩ := by
  unfold runawayCheck
  rw [if_pos hcond]
  dsimp only
  rw [if_neg (by simp [hf])]

theorem memoryCheck_eq_of_not_cond (cfg : ProcessConfig) (acts : ActionConfig)
    (now : Nat) (acc : ProcAcc) (p : ProcessInfo)
    (h : memoryCond cfg p = false) :
    memoryCheck cfg acts now acc p = acc := by
  unfold memoryCheck
  rw [if_neg (by simp [h])]

theorem memoryCheck_eq_known (cfg : ProcessConfig) (acts : ActionConfig)
    (now : Nat) (acc : ProcAcc) (p : ProcessInfo)
    (hcond : memoryCond cfg p = true)
    (ht : kiTruthy acc.known (getIssueKey (memoryIssue p)) = true) :
    memoryCheck cfg acts now acc p = acc := by
  unfold memoryCheck
  rw [if_pos hcond]
  dsimp only
  rw [if_pos ht]

theorem memoryCheck_eq_new (cfg : ProcessConfig) (acts : ActionConfig)
    (now : Nat) (acc : ProcAcc) (p : ProcessInfo)
    (hcond : memoryCond cfg p = true)
    (hf : kiTruthy acc.known (getIssueKey (memoryIssue p)) = false) :
    memoryCheck cfg acts now acc p
      = ⟨acc.issues ++ [memoryIssue p],
        kiSet acc.known (getIssueKey (memoryIssue p)) now,
        acc.events ++ memoryNotifEvents acts p (getIssueKey (memoryIssue p))⟩ := by
  unfold memoryCheck
  rw [if_pos hcond]
  dsimp only
  rw [if_neg (by simp [hf])]

theorem processStep_eq_of_ignored (cfg : ProcessConfig) (acts : ActionConfig)
    (ko : String → Bool) (now : Nat) (acc : ProcAcc) (p : ProcessInfo)
    (h : isIgnored cfg p = true) :
    processStep cfg acts ko now acc p = acc := by
  unfold processStep
  rw [if_pos h]

theorem processStep_eq_of_not_ignored (cfg : ProcessConfig) (acts : ActionConfig)
    (ko : String → Bool) (now : Nat) (acc : ProcAcc) (p : ProcessInfo)
    (h : isIgnored cfg p = false) :
    processStep cfg acts ko now acc p
      = memoryCheck cfg acts now (runawayCheck cfg acts ko now acc p) p := by
  unfold processStep
  rw [if_neg (by simp [h])]

/-- The runaway section never moves the truthiness of a `memory:` key. -/
theorem runawayCheck_preserves_memory_truthy (cfg : ProcessConfig) (acts : ActionConfig)
    (ko : String → Bool) (now : Nat) (acc : ProcAcc) (p : ProcessInfo) (y : String) :
    kiTruthy (runawayCheck cfg acts ko now acc p).known ("memory:" ++ y)
      = kiTruthy acc.known ("memory:" ++ y) := by
  obtain ⟨x, hx⟩ := getIssueKey_runawayIssue p (runawayKilled cfg acts ko p)
  unfold runawayCheck
  split
  · dsimp only
    split
    · rfl
    · dsimp only
      rw [hx, kiTruthy_kiSet_of_ne _ _ (fun hc => runaway_key_ne_memory x y hc.symm)]
  · rfl

/-! ### Claim C6 — the memory check is not independent of ignorePatterns -/

/-- C6 counterexample: a memory-hog process (3000MB > 2000MB threshold,
2h > 1h runtime, fresh key) whose command matches the ignore pattern
`"myapp"` produces no memory issue at all. -/
theorem claim_C6_counterexample :
    memoryCond ⟨80, 2000, 2, [], ["myapp"]⟩ ⟨"7", 0, 3000, 2, "myapp --serve", "S"⟩ = true
    ∧ kiTruthy ([] : KnownIssues) ("memory:" ++ "7") = false
    ∧ (monitorProcesses ⟨80, 2000, 2, [], ["myapp"]⟩ DEFAULT_ACTIONS (fun _ => true) 77
        [⟨"7", 0, 3000, 2, "myapp --serve", "S"⟩] ⟨none, 0, 0, 0, []⟩).issues = [] := by
  decide

/-- C6 (amended): for every process in the snapshot that matches no
`ignorePatterns` entry, `memoryMB > memoryThresholdMB` and
`runtimeHours > 1` (with a fresh `memory:{pid}` key) yield a memory Issue
regardless of the `safeToKillPatterns` list; but a process matching an
`ignorePatterns` entry is skipped entirely — including the memory check —
so the check is independent of the safe-to-kill list only. -/
theorem claim_C6 (cfg : ProcessConfig) (acts : ActionConfig) (ko : String → Bool)
    (now : Nat) (p : ProcessInfo) (s : WatchdogState) (acc : ProcAcc)
    (hig : isIgnored cfg p = false)
    (hmem : memoryCond cfg p = true)
    (hpid : p.pid.data.isEmpty = false)
    (hfalsy : kiTruthy s.knownIssues ("memory:" ++ p.pid) = false) :
    memoryIssue p ∈ (monitorProcesses cfg acts ko now [p] s).issues
    ∧ ∀ q : ProcessInfo, isIgnored cfg q = true → processStep cfg acts ko now acc q = acc := by
  constructor
  · have hkey : getIssueKey (memoryIssue p) = "memory:" ++ p.pid :=
      getIssueKey_memoryIssue_pid p hpid
    have hstep : (monitorProcesses cfg acts ko now [p] s).issues
        = (memoryCheck cfg acts now
            (runawayCheck cfg acts ko now ⟨[], s.knownIssues, []⟩ p) p).issues := by
      show (procLoop cfg acts ko now [p] ⟨[], s.knownIssues, []⟩).issues = _
      show (processStep cfg acts ko now ⟨[], s.knownIssues, []⟩ p).issues = _
      rw [processStep_eq_of_not_ignored _ _ _ _ _ _ hig]
    rw [hstep]
    have hf2 : kiTruthy (runawayCheck cfg acts ko now ⟨[], s.knownIssues, []⟩ p).known
        (getIssueKey (memoryIssue p)) = false := by
      rw [hkey, runawayCheck_preserves_memory_truthy]
      exact hfalsy
    rw [memoryCheck_eq_new cfg acts now _ p hmem hf2]
    simp
  · intro q hq
    exact processStep_eq_of_ignored cfg acts ko now acc q hq

/-- C6 witness: a non-ignored memory hog is recorded even though its
command matches the safe-to-kill pattern list. -/
theorem claim_C6_witness :
    memoryIssue ⟨"7", 0, 3000, 2, "worker --serve", "S"⟩
      ∈ (monitorProcesses ⟨80, 2000, 2, ["worker"], ["zzz"]⟩ DEFAULT_ACTIONS (fun _ => true) 77
        [⟨"7", 0, 3000, 2, "worker --serve", "S"⟩] ⟨none, 0, 0, 0, []⟩).issues
    ∧ processStep ⟨80, 2000, 2, ["worker"], ["zzz"]⟩ DEFAULT_ACTIONS (fun _ => true) 77
        ⟨[], [], []⟩ ⟨"8", 0, 3000, 2, "zzz --serve", "S"⟩ = ⟨[], [], []⟩ :=
  ⟨(claim_C6 ⟨80, 2000, 2, ["worker"], ["zzz"]⟩ DEFAULT_ACTIONS (fun _ => true) 77
      ⟨"7", 0, 3000, 2, "worker --serve", "S"⟩ ⟨none, 0, 0, 0, []⟩ ⟨[], [], []⟩
      (by decide) (by decide) (by decide) (by decide)).1,
    (claim_C6 ⟨80, 2000, 2, ["worker"], ["zzz"]⟩ DEFAULT_ACTIONS (fun _ => true) 77
      ⟨"7", 0, 3000, 2, "worker --serve", "S"⟩ ⟨none, 0, 0, 0, []⟩ ⟨[], [], []⟩
      (by decide) (by decide) (by decide) (by decide)).2
      ⟨"8", 0, 3000, 2, "zzz --serve", "S"⟩ (by decide)⟩

/-! ### Single-process runs of the process monitor -/

theorem monitorProcesses_single_new (cfg : ProcessConfig) (acts : ActionConfig)
    (ko : String → Bool) (now : Nat) (p : ProcessInfo) (s : WatchdogState)
    (hig : isIgnored cfg p = false) (hcond : runawayCond cfg p = true)
    (hpid : p.pid.data.isEmpty = false) (hmem : memoryCond cfg p = false)
    (hfalsy : kiTruthy s.knownIssues ("runaway:" ++ p.pid) = false) :
    monitorProcesses cfg acts ko now [p] s
      = ⟨[runawayIssue p (runawayKilled cfg acts ko p)],
         { s with knownIssues :=
            cleanup (kiSet s.knownIssues ("runaway:" ++ p.pid) now) [p.pid] },
         runawayPreEvents cfg acts p
           ++ runawayNotifEvents cfg acts ko p ("runaway:" ++ p.pid)⟩ := by
  have hkey := getIssueKey_runawayIssue_pid p (runawayKilled cfg acts ko p) hpid
  have hstep : procLoop cfg acts ko now [p] ⟨[], s.knownIssues, []⟩
      = ⟨[runawayIssue p (runawayKilled cfg acts ko p)],
         kiSet s.knownIssues ("runaway:" ++ p.pid) now,
         runawayPreEvents cfg acts p
           ++ runawayNotifEvents cfg acts ko p ("runaway:" ++ p.pid)⟩ := by
    show processStep cfg acts ko now ⟨[], s.knownIssues, []⟩ p = _
    rw [processStep_eq_of_not_ignored _ _ _ _ _ _ hig,
      runawayCheck_eq_new _ _ _ _ _ _ hcond (by rw [hkey]; exact hfalsy),
      memoryCheck_eq_of_not_cond _ _ _ _ _ hmem, hkey]
    simp
  simp only [monitorProcesses]
  rw [hstep]
  rfl

theorem monitorProcesses_single_known (cfg : ProcessConfig) (acts : ActionConfig)
    (ko : String → Bool) (now : Nat) (p : ProcessInfo) (s : WatchdogState)
    (hig : isIgnored cfg p = false) (hcond : runawayCond cfg p = true)
    (hpid : p.pid.data.isEmpty = false) (hmem : memoryCond cfg p = false)
    (htruthy : kiTruthy s.knownIssues ("runaway:" ++ p.pid) = true) :
    monitorProcesses cfg acts ko now [p] s
      = ⟨[], { s with knownIssues := cleanup s.knownIssues [p.pid] },
         runawayPreEvents cfg acts p⟩ := by
  have hkey := getIssueKey_runawayIssue_pid p (runawayKilled cfg acts ko p) hpid
  have hstep : procLoop cfg acts ko now [p] ⟨[], s.knownIssues, []⟩
      = ⟨[], s.knownIssues, runawayPreEvents cfg acts p⟩ := by
    show processStep cfg acts ko now ⟨[], s.knownIssues, []⟩ p = _
    rw [processStep_eq_of_not_ignored _ _ _ _ _ _ hig,
      runawayCheck_eq_known _ _ _ _ _ _ hcond (by rw [hkey]; exact htruthy),
      memoryCheck_eq_of_not_cond _ _ _ _ _ hmem]
    simp
  simp only [monitorProcesses]
  rw [hstep]
  rfl

/-! ### Claim C4 — action-mode gating of the runaway kill -/

/-- C4: for a runaway process matching a safe-to-kill pattern (not ignored,
key new, not a memory hog): under `killRunaway = auto` exactly one kill
attempt is made on that pid; under `ask`, zero kill attempts, guidance is
rendered and no webhook notification is sent; under `deny`, zero kill
attempts, no guidance, and a critical (error) notification is sent. -/
theorem claim_C4 (cfg : ProcessConfig) (acts : ActionConfig) (ko : String → Bool)
    (now : Nat) (p : ProcessInfo) (s : WatchdogState)
    (hig : isIgnored cfg p = false)
    (hcond : runawayCond cfg p = true)
    (hsafe : isSafeToKill cfg p = true)
    (hpid : p.pid.data.isEmpty = false)
    (hmem : memoryCond cfg p = false)
    (hfalsy : kiTruthy s.knownIssues ("runaway:" ++ p.pid) = false) :
    (acts.killRunaway = ActionMode.auto →
      (monitorProcesses cfg acts ko now [p] s).events.filterMap Event.killPid = [p.pid])
    ∧ (acts.killRunaway = ActionMode.ask →
      (monitorProcesses cfg acts ko now [p] s).events.filterMap Event.killPid = []
      ∧ Event.guidance IssueType.runaway p.pid ∈ (monitorProcesses cfg acts ko now [p] s).events
      ∧ (monitorProcesses cfg acts ko now [p] s).events.filterMap Event.notifKey = [])
    ∧ (acts.killRunaway = ActionMode.deny →
      (monitorProcesses cfg acts ko now [p] s).events.filterMap Event.killPid = []
      ∧ (∀ e ∈ (monitorProcesses cfg acts ko now [p] s).events, Event.isGuidance e = false)
      ∧ Event.notif ("runaway:" ++ p.pid) "Runaway Process Detected" true
          ∈ (monitorProcesses cfg acts ko now [p] s).events) := by
  have hrun := monitorProcesses_single_new cfg acts ko now p s hig hcond hpid hmem hfalsy
  have hmode : runawayMode cfg acts p = acts.killRunaway := by
    unfold runawayMode
    rw [if_pos hsafe]
  refine ⟨?_, ?_, ?_⟩
  · intro hauto
    rw [hrun]
    dsimp only
    have hdo : runawayDoKill cfg acts p = true := by
      unfold runawayDoKill
      rw [hmode, hauto, hsafe]
      rfl
    cases hko : ko p.pid <;>
      simp [runawayPreEvents, runawayNotifEvents, runawayKilled, hdo, hmode, hauto,
        Event.killPid, hko]
  · intro hask
    rw [hrun]
    dsimp only
    have hdo : runawayDoKill cfg acts p = false := by
      unfold runawayDoKill
      rw [hmode, hask]
      rfl
    have hkill : runawayKilled cfg acts ko p = false := by
      unfold runawayKilled
      rw [hdo]
      rfl
    simp [runawayPreEvents, runawayNotifEvents, hdo, hkill, hmode, hask,
      Event.killPid, Event.notifKey]
  · intro hdeny
    rw [hrun]
    dsimp only
    have hdo : runawayDoKill cfg acts p = false := by
      unfold runawayDoKill
      rw [hmode, hdeny]
      rfl
    have hkill : runawayKilled cfg acts ko p = false := by
      unfold runawayKilled
      rw [hdo]
      rfl
    simp [runawayPreEvents, runawayNotifEvents, hdo, hkill, hmode, hdeny,
      Event.killPid, Event.isGuidance]

/-- C4 witness: auto mode yields exactly one kill attempt on pid 7; deny
mode yields the critical notification instead. -/
theorem claim_C4_witness :
    (monitorProcesses ⟨80, 2000, 2, ["worker"], []⟩ DEFAULT_ACTIONS (fun _ => true) 77
      [⟨"7", 99, 0, 3, "worker --run", "R"⟩] ⟨none, 0, 0, 0, []⟩).events.filterMap
        Event.killPid = ["7"]
    ∧ Event.notif ("runaway:" ++ "7") "Runaway Process Detected" true
        ∈ (monitorProcesses ⟨80, 2000, 2, ["worker"], []⟩
          ⟨ActionMode.auto, ActionMode.deny, ActionMode.ask, ActionMode.ask, ActionMode.ask⟩
          (fun _ => true) 77
          [⟨"7", 99, 0, 3, "worker --run", "R"⟩] ⟨none, 0, 0, 0, []⟩).events :=
  ⟨(claim_C4 ⟨80, 2000, 2, ["worker"], []⟩ DEFAULT_ACTIONS (fun _ => true) 77
      ⟨"7", 99, 0, 3, "worker --run", "R"⟩ ⟨none, 0, 0, 0, []⟩
      (by decide) (by decide) (by decide) (by decide) (by decide) (by decide)).1 rfl,
    ((claim_C4 ⟨80, 2000, 2, ["worker"], []⟩
      ⟨ActionMode.auto, ActionMode.deny, ActionMode.ask, ActionMode.ask, ActionMode.ask⟩
      (fun _ => true) 77
      ⟨"7", 99, 0, 3, "worker --run", "R"⟩ ⟨none, 0, 0, 0, []⟩
      (by decide) (by decide) (by decide) (by decide) (by decide) (by decide)).2.2 rfl).2.2⟩

theorem kiTruthy_of_lookup_some (m : KnownIssues) (k : String) (v : Nat)
    (hv : kiLookup m k = some v) (h0 : v ≠ 0) : kiTruthy m k = true := by
  unfold kiTruthy
  rw [hv]
  simpa using h0

theorem kiTruthy_of_lookup_none (m : KnownIssues) (k : String)
    (hv : kiLookup m k = none) : kiTruthy m k = false := by
  unfold kiTruthy
  rw [hv]

/-! ### Claim C2 — dedup round-trip of a runaway pid -/

/-- C2: a fresh runaway pid yields an Issue on the first pass and inserts
`runaway:{pid}`; the unchanged snapshot yields no issue on the second pass;
a snapshot without the pid prunes the key; a later snapshot with a runaway
process under the same (recycled) pid yields an Issue again. -/
theorem claim_C2 (cfg : ProcessConfig) (acts : ActionConfig) (ko : String → Bool)
    (now1 now2 now3 now4 : Nat) (p p' : ProcessInfo) (s : WatchdogState)
    (hig : isIgnored cfg p = false) (hcond : runawayCond cfg p = true)
    (hpid : p.pid.data.isEmpty = false) (hcolon : p.pid.data.contains ':' = false)
    (hmem : memoryCond cfg p = false)
    (hfalsy : kiTruthy s.knownIssues ("runaway:" ++ p.pid) = false)
    (hnow1 : 0 < now1)
    (hig' : isIgnored cfg p' = false) (hcond' : runawayCond cfg p' = true)
    (hpidq : p'.pid = p.pid) (hmem' : memoryCond cfg p' = false) :
    (monitorProcesses cfg acts ko now1 [p] s).issues
      = [runawayIssue p (runawayKilled cfg acts ko p)]
    ∧ (monitorProcesses cfg acts ko now2 [p]
        (monitorProcesses cfg acts ko now1 [p] s).state).issues = []
    ∧ kiLookup (monitorProcesses cfg acts ko now3 []
        (monitorProcesses cfg acts ko now2 [p]
          (monitorProcesses cfg acts ko now1 [p] s).state).state).state.knownIssues
        ("runaway:" ++ p.pid) = none
    ∧ (monitorProcesses cfg acts ko now4 [p']
        (monitorProcesses cfg acts ko now3 []
          (monitorProcesses cfg acts ko now2 [p]
            (monitorProcesses cfg acts ko now1 [p] s).state).state).state).issues
      = [runawayIssue p' (runawayKilled cfg acts ko p')] := by
  have hsd1 : shouldDelete ("runaway:" ++ p.pid) [p.pid] = false := by
    unfold shouldDelete
    rw [splitColon_runaway p.pid hcolon]
    simp
  have hsd0 : shouldDelete ("runaway:" ++ p.pid) [] = true := by
    unfold shouldDelete
    rw [splitColon_runaway p.pid hcolon]
    simp [hpid]
  have h1 := monitorProcesses_single_new cfg acts ko now1 p s hig hcond hpid hmem hfalsy
  have hs1 : kiTruthy (monitorProcesses cfg acts ko now1 [p] s).state.knownIssues
      ("runaway:" ++ p.pid) = true := by
    rw [h1]
    dsimp only
    refine kiTruthy_of_lookup_some _ _ now1 ?_ (by omega)
    rw [kiLookup_cleanup, if_neg (by simp [hsd1]), kiLookup_kiSet_self]
  have h2 := monitorProcesses_single_known cfg acts ko now2 p
    (monitorProcesses cfg acts ko now1 [p] s).state hig hcond hpid hmem hs1
  have h3 : kiLookup (monitorProcesses cfg acts ko now3 []
      (monitorProcesses cfg acts ko now2 [p]
        (monitorProcesses cfg acts ko now1 [p] s).state).state).state.knownIssues
      ("runaway:" ++ p.pid) = none := by
    show kiLookup (cleanup (monitorProcesses cfg acts ko now2 [p]
      (monitorProcesses cfg acts ko now1 [p] s).state).state.knownIssues []) _ = none
    rw [kiLookup_cleanup, if_pos hsd0]
  have hs3 : kiTruthy (monitorProcesses cfg acts ko now3 []
      (monitorProcesses cfg acts ko now2 [p]
        (monitorProcesses cfg acts ko now1 [p] s).state).state).state.knownIssues
      ("runaway:" ++ p'.pid) = false := by
    rw [hpidq]
    exact kiTruthy_of_lookup_none _ _ h3
  have hpid' : p'.pid.data.isEmpty = false := by
    rw [hpidq]
    exact hpid
  have h4 := monitorProcesses_single_new cfg acts ko now4 p'
    (monitorProcesses cfg acts ko now3 []
      (monitorProcesses cfg acts ko now2 [p]
        (monitorProcesses cfg acts ko now1 [p] s).state).state).state
    hig' hcond' hpid' hmem' hs3
  refine ⟨by rw [h1], by rw [h2], h3, by rw [h4]⟩

/-- C2 witness: pid 7 runs away, dedups, is pruned on an empty snapshot and
re-alerts when recycled. -/
theorem claim_C2_witness :
    (monitorProcesses ⟨80, 2000, 2, [], []⟩ DEFAULT_ACTIONS (fun _ => true) 10
      [⟨"7", 99, 0, 3, "worker --run", "R"⟩] ⟨none, 0, 0, 0, []⟩).issues
      = [runawayIssue ⟨"7", 99, 0, 3, "worker --run", "R"⟩
          (runawayKilled ⟨80, 2000, 2, [], []⟩ DEFAULT_ACTIONS (fun _ => true)
            ⟨"7", 99, 0, 3, "worker --run", "R"⟩)]
    ∧ (monitorProcesses ⟨80, 2000, 2, [], []⟩ DEFAULT_ACTIONS (fun _ => true) 20
        [⟨"7", 99, 0, 3, "worker --run", "R"⟩]
        (monitorProcesses ⟨80, 2000, 2, [], []⟩ DEFAULT_ACTIONS (fun _ => true) 10
          [⟨"7", 99, 0, 3, "worker --run", "R"⟩] ⟨none, 0, 0, 0, []⟩).state).issues = []
    ∧ kiLookup (monitorProcesses ⟨80, 2000, 2, [], []⟩ DEFAULT_ACTIONS (fun _ => true) 30 []
        (monitorProcesses ⟨80, 2000, 2, [], []⟩ DEFAULT_ACTIONS (fun _ => true) 20
          [⟨"7", 99, 0, 3, "worker --run", "R"⟩]
          (monitorProcesses ⟨80, 2000, 2, [], []⟩ DEFAULT_ACTIONS (fun _ => true) 10
            [⟨"7", 99, 0, 3, "worker --run", "R"⟩]
            ⟨none, 0, 0, 0, []⟩).state).state).state.knownIssues
        ("runaway:" ++ "7") = none
    ∧ (monitorProcesses ⟨80, 2000, 2, [], []⟩ DEFAULT_ACTIONS (fun _ => true) 40
        [⟨"7", 95, 0, 4, "other --x", "R"⟩]
        (monitorProcesses ⟨80, 2000, 2, [], []⟩ DEFAULT_ACTIONS (fun _ => true) 30 []
          (monitorProcesses ⟨80, 2000, 2, [], []⟩ DEFAULT_ACTIONS (fun _ => true) 20
            [⟨"7", 99, 0, 3, "worker --run", "R"⟩]
            (monitorProcesses ⟨80, 2000, 2, [], []⟩ DEFAULT_ACTIONS (fun _ => true) 10
              [⟨"7", 99, 0, 3, "worker --run", "R"⟩]
              ⟨none, 0, 0, 0, []⟩).state).state).state).issues
      = [runawayIssue ⟨"7", 95, 0, 4, "other --x", "R"⟩
          (runawayKilled ⟨80, 2000, 2, [], []⟩ DEFAULT_ACTIONS (fun _ => true)
            ⟨"7", 95, 0, 4, "other --x", "R"⟩)] :=
  claim_C2 ⟨80, 2000, 2, [], []⟩ DEFAULT_ACTIONS (fun _ => true) 10 20 30 40
    ⟨"7", 99, 0, 3, "worker --run", "R"⟩ ⟨"7", 95, 0, 4, "other --x", "R"⟩
    ⟨none, 0, 0, 0, []⟩
    (by decide) (by decide) (by decide) (by decide) (by decide) (by decide) (by decide)
    (by decide) (by decide) (by decide) (by decide)

/-! ### Claim C1 — backoff gating and restart rate limiting -/

theorem backoffActive_true (cfg : ContainerConfig) (s : WatchdogState) (now t : Nat)
    (hset : s.lastRestartTime = some t) (ht : t ≠ 0)
    (hlt : ((now : ℚ) - (t : ℚ)) / 1000 / 60 < cfg.backoffMinutes) :
    backoffActive cfg s now = true := by
  unfold backoffActive
  rw [hset]
  simp [ht, hlt]

theorem monitorContainer_skip (cfg : ContainerConfig) (s : WatchdogState) (now : Nat)
    (h : HealthResult) (rOk : Bool) (hb : backoffActive cfg s now = true) :
    monitorContainer cfg s now h rOk = ⟨[], s, false, false, []⟩ := by
  unfold monitorContainer
  rw [if_pos hb]

theorem monitorContainer_cases (cfg : ContainerConfig) (s : WatchdogState) (now : Nat)
    (h : HealthResult) (rOk : Bool) :
    ((monitorContainer cfg s now h rOk).restartAttempted = false
      ∧ (monitorContainer cfg s now h rOk).state.lastRestartTime = s.lastRestartTime)
    ∨ ((monitorContainer cfg s now h rOk).restartAttempted = true
      ∧ (monitorContainer cfg s now h rOk).state.lastRestartTime = some now
      ∧ backoffActive cfg s now = false) := by
  unfold monitorContainer
  by_cases hb : backoffActive cfg s now
  · rw [if_pos hb]
    exact Or.inl ⟨rfl, rfl⟩
  · rw [if_neg hb]
    by_cases hh : h.healthy
    · rw [if_pos hh]
      exact Or.inl ⟨rfl, rfl⟩
    · rw [if_neg hh]
      dsimp only
      by_cases hr : rOk
      · rw [if_pos hr]
        exact Or.inr ⟨rfl, rfl, by simpa using hb⟩
      · rw [if_neg hr]
        exact Or.inr ⟨rfl, rfl, by simpa using hb⟩

theorem monitorContainer_restart_gap (cfg : ContainerConfig) (s : WatchdogState) (now : Nat)
    (h : HealthResult) (rOk : Bool) (t : Nat)
    (hr : (monitorContainer cfg s now h rOk).restartAttempted = true)
    (hset : s.lastRestartTime = some t) (ht : t ≠ 0) :
    cfg.backoffMinutes ≤ ((now : ℚ) - (t : ℚ)) / 1000 / 60 := by
  rcases monitorContainer_cases cfg s now h rOk with ⟨hf, _⟩ | ⟨_, _, hb⟩
  · rw [hr] at hf
    exact absurd hf (by simp)
  · by_contra hc
    have hlt : ((now : ℚ) - (t : ℚ)) / 1000 / 60 < cfg.backoffMinutes := not_le.mp hc
    rw [backoffActive_true cfg s now t hset ht hlt] at hb
    exact Bool.noConfusion hb

/-- Minimum spacing required between two restart-attempt times. -/
def backoffSeparated (cfg : ContainerConfig) (a b : Nat) : Prop :=
  cfg.backoffMinutes ≤ ((b : ℚ) - (a : ℚ)) / 1000 / 60

theorem runContainer_chain (cfg : ContainerConfig) :
    ∀ (inputs : List ContInput) (s : WatchdogState),
      (∀ i ∈ inputs, i.now ≠ 0) →
      List.Chain' (backoffSeparated cfg) (runContainer cfg inputs s).2
      ∧ (∀ t f, s.lastRestartTime = some t → t ≠ 0 →
          (runContainer cfg inputs s).2.head? = some f → backoffSeparated cfg t f) := by
  intro inputs
  induction inputs with
  | nil =>
    intro s _
    refine ⟨List.chain'_nil, ?_⟩
    intro t f _ _ hf
    exact Option.noConfusion hf
  | cons i rest ih =>
    intro s hnz
    have hnz' : ∀ j ∈ rest, j.now ≠ 0 := fun j hj => hnz j (List.mem_cons_of_mem _ hj)
    have hni : i.now ≠ 0 := hnz i (List.mem_cons_self _ _)
    rcases monitorContainer_cases cfg s i.now i.health i.restartOk with
      ⟨hf, hkeep⟩ | ⟨hta, hset', _⟩
    · obtain ⟨hchain, hhead⟩ :=
        ih (monitorContainer cfg s i.now i.health i.restartOk).state hnz'
      have hout : (runContainer cfg (i :: rest) s).2
          = (runContainer cfg rest (monitorContainer cfg s i.now i.health i.restartOk).state).2 := by
        show ((if (monitorContainer cfg s i.now i.health i.restartOk).restartAttempted
          then [i.now] else []) ++ _) = _
        rw [hf]
        simp
      refine ⟨by rw [hout]; exact hchain, ?_⟩
      intro t f hset htne hf'
      rw [hout] at hf'
      exact hhead t f (by rw [hkeep, hset]) htne hf'
    · obtain ⟨hchain, hhead⟩ :=
        ih (monitorContainer cfg s i.now i.health i.restartOk).state hnz'
      have hout : (runContainer cfg (i :: rest) s).2
          = i.now ::
            (runContainer cfg rest (monitorContainer cfg s i.now i.health i.restartOk).state).2 := by
        show ((if (monitorContainer cfg s i.now i.health i.restartOk).restartAttempted
          then [i.now] else []) ++ _) = _
        rw [hta]
        simp
      constructor
      · rw [hout]
        refine List.chain'_cons'.mpr ⟨?_, hchain⟩
        intro b hb
        exact hhead i.now b hset' hni hb
      · intro t f hset htne hf'
        rw [hout] at hf'
        have hfi : f = i.now := by
          have := hf'
          simp at this
          exact this.symm
        rw [hfi]
        exact monitorContainer_restart_gap cfg s i.now i.health i.restartOk t hta hset htne

/-- C1: inside the backoff window (`lastRestartTime` truthy and less than
`backoffMinutes` minutes old) `monitorContainer` returns no issues,
performs no probe and no restart, and leaves the state — `restartCount`,
`consecutiveFailures`, `lastRestartTime`, `knownIssues` — unchanged; and
over any sequence of invocations (with nonzero clock values) consecutive
restart-attempt times are at least `backoffMinutes` minutes apart. -/
theorem claim_C1 (cfg : ContainerConfig) (s : WatchdogState) (now t : Nat)
    (h : HealthResult) (rOk : Bool) (inputs : List ContInput) (s0 : WatchdogState)
    (hset : s.lastRestartTime = some t) (ht : t ≠ 0)
    (hlt : ((now : ℚ) - (t : ℚ)) / 1000 / 60 < cfg.backoffMinutes)
    (hnz : ∀ i ∈ inputs, i.now ≠ 0) :
    monitorContainer cfg s now h rOk = ⟨[], s, false, false, []⟩
    ∧ List.Chain' (backoffSeparated cfg) (runContainer cfg inputs s0).2 :=
  ⟨monitorContainer_skip cfg s now h rOk (backoffActive_true cfg s now t hset ht hlt),
    (runContainer_chain cfg inputs s0 hnz).1⟩

/-- C1 witness: a restart one second ago with a 60-minute backoff skips
everything; a two-invocation sequence keeps its restart times separated. -/
theorem claim_C1_witness :
    monitorContainer ⟨"http://h", "/srv/app", 10, 15, 60, none⟩
        ⟨some 1000, 2, 0, 3, [("swap_critical", 5)]⟩ 2000 ⟨false, 0, "HTTP 500"⟩ true
      = ⟨[], ⟨some 1000, 2, 0, 3, [("swap_critical", 5)]⟩, false, false, []⟩
    ∧ List.Chain' (backoffSeparated ⟨"http://h", "/srv/app", 10, 15, 60, none⟩)
        (runContainer ⟨"http://h", "/srv/app", 10, 15, 60, none⟩
          [⟨3600000, ⟨false, 0, "HTTP 500"⟩, true⟩, ⟨7200001, ⟨false, 0, "HTTP 500"⟩, false⟩]
          ⟨none, 0, 0, 0, []⟩).2 :=
  claim_C1 ⟨"http://h", "/srv/app", 10, 15, 60, none⟩
    ⟨some 1000, 2, 0, 3, [("swap_critical", 5)]⟩ 2000 1000 ⟨false, 0, "HTTP 500"⟩ true
    [⟨3600000, ⟨false, 0, "HTTP 500"⟩, true⟩, ⟨7200001, ⟨false, 0, "HTTP 500"⟩, false⟩]
    ⟨none, 0, 0, 0, []⟩ rfl (by decide) (by norm_num)
    (by intro i hi; fin_cases hi <;> decide)

/-! ### Claim C5 — swap lifecycle -/

theorem swapSection_above (cfg : SystemConfig) (known : KnownIssues) (now total used : Nat)
    (procs : List ProcessInfo) (ko : String → Bool) (restartOk rt : Bool)
    (habove : cfg.swapThreshold < swapPercentOf total used) :
    swapSection cfg known now (some (total, used)) procs ko restartOk rt
      = ([swapIssueOf total used],
        (if !(kiTruthy known "swap_critical") then kiSet known "swap_critical" now else known),
        (swapMatched cfg procs).map (fun p => Event.killAttempt p.pid)
          ++ (if swapRestartTried cfg rt then [Event.composeRestart] else [])
          ++ swapNotifEvents cfg known procs ko restartOk rt) := by
  unfold swapSection
  dsimp only
  rw [if_pos habove]

theorem swapSection_below_truthy (cfg : SystemConfig) (known : KnownIssues)
    (now total used : Nat) (procs : List ProcessInfo) (ko : String → Bool) (restartOk rt : Bool)
    (hbelow : ¬ cfg.swapThreshold < swapPercentOf total used)
    (htr : kiTruthy known "swap_critical" = true) :
    swapSection cfg known now (some (total, used)) procs ko restartOk rt
      = ([], kiDelete known "swap_critical",
        [Event.notif "swap_critical" "Swap Pressure Resolved" false]) := by
  unfold swapSection
  dsimp only
  rw [if_neg hbelow, if_pos htr]

theorem swapSection_below_falsy (cfg : SystemConfig) (known : KnownIssues)
    (now total used : Nat) (procs : List ProcessInfo) (ko : String → Bool) (restartOk rt : Bool)
    (hbelow : ¬ cfg.swapThreshold < swapPercentOf total used)
    (hf : kiTruthy known "swap_critical" = false) :
    swapSection cfg known now (some (total, used)) procs ko restartOk rt
      = ([], known, []) := by
  unfold swapSection
  dsimp only
  rw [if_neg hbelow, if_neg (by simp [hf])]

theorem dstateStep_shape (now : Nat) (acc : ProcAcc) (d : DProc) :
    dstateStep now acc d = acc
    ∨ ∃ x, getIssueKey (stuckIssue d) = "stuck:" ++ x
        ∧ kiTruthy acc.known (getIssueKey (stuckIssue d)) = false
        ∧ dstateStep now acc d
          = ⟨acc.issues ++ [stuckIssue d], kiSet acc.known (getIssueKey (stuckIssue d)) now,
             acc.events ++ [Event.notif (getIssueKey (stuckIssue d))
               "Stuck Process Detected" false]⟩ := by
  obtain ⟨x, hx⟩ := getIssueKey_stuckIssue d
  unfold dstateStep
  split
  · exact Or.inl rfl
  · split
    · exact Or.inl rfl
    · dsimp only
      split
      · exact Or.inl rfl
      · rename_i hcc
        exact Or.inr ⟨x, hx, Bool.eq_false_iff.mpr hcc, rfl⟩

theorem dstateLoop_shape (now : Nat) (dprocs : List DProc) :
    ∀ acc : ProcAcc, ∃ exIss exEv,
      (dstateLoop now dprocs acc).issues = acc.issues ++ exIss
      ∧ (dstateLoop now dprocs acc).events = acc.events ++ exEv
      ∧ (∀ i ∈ exIss, i.type = IssueType.stuck)
      ∧ (∀ e ∈ exEv, ∃ x, e = Event.notif ("stuck:" ++ x) "Stuck Process Detected" false) := by
  induction dprocs with
  | nil =>
    intro acc
    exact ⟨[], [], by simp [dstateLoop], by simp [dstateLoop], by simp, by simp⟩
  | cons d rest ih =>
    intro acc
    rcases dstateStep_shape now acc d with heq | ⟨x, hx, hfl, heq⟩
    · obtain ⟨exIss, exEv, h1, h2, h3, h4⟩ := ih (dstateStep now acc d)
      refine ⟨exIss, exEv, ?_, ?_, h3, h4⟩
      · show (dstateLoop now rest (dstateStep now acc d)).issues = _
        rw [h1, heq]
      · show (dstateLoop now rest (dstateStep now acc d)).events = _
        rw [h2, heq]
    · obtain ⟨exIss, exEv, h1, h2, h3, h4⟩ := ih (dstateStep now acc d)
      refine ⟨stuckIssue d :: exIss,
        Event.notif (getIssueKey (stuckIssue d)) "Stuck Process Detected" false :: exEv,
        ?_, ?_, ?_, ?_⟩
      · show (dstateLoop now rest (dstateStep now acc d)).issues = _
        rw [h1, heq]
        simp
      · show (dstateLoop now rest (dstateStep now acc d)).events = _
        rw [h2, heq]
        simp
      · intro i hi
        rcases List.mem_cons.mp hi with hi' | hi'
        · rw [hi']
          rfl
        · exact h3 i hi'
      · intro e he
        rcases List.mem_cons.mp he with he' | he'
        · rw [he', hx]
          exact ⟨x, rfl⟩
        · exact h4 e he'

theorem monitorSystem_parts (cfg : SystemConfig) (s : WatchdogState) (now : Nat)
    (sr : Option (Nat × Nat)) (procs : List ProcessInfo) (ko : String → Bool)
    (restartOk rt : Bool) (dprocs : List DProc) :
    ∃ exIss exEv,
      (monitorSystem cfg s now sr procs ko restartOk rt dprocs).issues
        = (swapSection cfg s.knownIssues now sr procs ko restartOk rt).1 ++ exIss
      ∧ (monitorSystem cfg s now sr procs ko restartOk rt dprocs).events
        = (swapSection cfg s.knownIssues now sr procs ko restartOk rt).2.2 ++ exEv
      ∧ (∀ i ∈ exIss, i.type = IssueType.stuck)
      ∧ (∀ e ∈ exEv, ∃ x, e = Event.notif ("stuck:" ++ x) "Stuck Process Detected" false)
      ∧ kiLookup (monitorSystem cfg s now sr procs ko restartOk rt dprocs).state.knownIssues
          "swap_critical"
        = kiLookup (swapSection cfg s.knownIssues now sr procs ko restartOk rt).2.1
            "swap_critical" := by
  unfold monitorSystem
  dsimp only
  by_cases hd : cfg.checkDState
  · rw [if_pos hd]
    obtain ⟨exIss, exEv, h1, h2, h3, h4⟩ := dstateLoop_shape now dprocs
      ⟨(swapSection cfg s.knownIssues now sr procs ko restartOk rt).1,
        (swapSection cfg s.knownIssues now sr procs ko restartOk rt).2.1,
        (swapSection cfg s.knownIssues now sr procs ko restartOk rt).2.2⟩
    exact ⟨exIss, exEv, h1, h2, h3, h4, dstateLoop_preserves_swap now dprocs _⟩
  · rw [if_neg hd]
    exact ⟨[], [], by simp, by simp, by simp, by simp, rfl⟩

theorem monitorSystem_swap_notif_iff (cfg : SystemConfig) (s : WatchdogState)
    (now total used : Nat) (procs : List ProcessInfo) (ko : String → Bool)
    (restartOk rt : Bool) (dprocs : List DProc)
    (habove : cfg.swapThreshold < swapPercentOf total used) :
    (∃ ttl err, Event.notif "swap_critical" ttl err
        ∈ (monitorSystem cfg s now (some (total, used)) procs ko restartOk rt dprocs).events)
    ↔ (kiTruthy s.knownIssues "swap_critical" = false
       ∨ swapRemediated cfg procs ko restartOk rt = true) := by
  obtain ⟨exIss, exEv, hIss, hEv, hIssT, hEvT, hKn⟩ :=
    monitorSystem_parts cfg s now (some (total, used)) procs ko restartOk rt dprocs
  have hExNoSwapNotif : ∀ ttl err, Event.notif "swap_critical" ttl err ∉ exEv := by
    intro ttl err hmem
    obtain ⟨x, hx⟩ := hEvT _ hmem
    have : "swap_critical" = "stuck:" ++ x := by
      injection hx
    exact stuck_key_ne_swap x this.symm
  have hsw := swapSection_above cfg s.knownIssues now total used procs ko restartOk rt habove
  constructor
  · rintro ⟨ttl, err, hmem⟩
    rw [hEv, hsw] at hmem
    dsimp only at hmem
    rcases List.mem_append.mp hmem with hmem | hmem
    swap
    · exact absurd hmem (hExNoSwapNotif ttl err)
    rcases List.mem_append.mp hmem with hmem | hmem
    rcases List.mem_append.mp hmem with hmem | hmem
    · obtain ⟨q, _, hq⟩ := List.mem_map.mp hmem
      exact Event.noConfusion hq
    · by_cases htried : swapRestartTried cfg rt
      · rw [if_pos htried] at hmem
        exact Event.noConfusion (List.mem_singleton.mp hmem)
      · rw [if_neg htried] at hmem
        exact absurd hmem (List.not_mem_nil _)
    · unfold swapNotifEvents at hmem
      by_cases hcnd : (!(kiTruthy s.knownIssues "swap_critical")
          || swapRemediated cfg procs ko restartOk rt) = true
      · rcases Bool.or_eq_true_iff.mp hcnd with hnew | hrem
        · exact Or.inl (by simpa using hnew)
        · exact Or.inr hrem
      · rw [if_neg (by simpa using hcnd)] at hmem
        exact absurd hmem (List.not_mem_nil _)
  · intro hcond
    have hcnd : (!(kiTruthy s.knownIssues "swap_critical")
        || swapRemediated cfg procs ko restartOk rt) = true := by
      rcases hcond with h1 | h1
      · simp [h1]
      · simp [h1]
    refine ⟨(if swapRemediated cfg procs ko restartOk rt then "Swap Critical - Auto-Remediated"
        else "Swap Pressure Critical"), !swapRemediated cfg procs ko restartOk rt, ?_⟩
    rw [hEv, hsw]
    dsimp only
    refine List.mem_append.mpr (Or.inl (List.mem_append.mpr (Or.inr ?_)))
    unfold swapNotifEvents
    rw [if_pos hcnd]
    exact List.mem_singleton.mpr rfl

/-- C5: while the measured swap percentage is above `swapThreshold`, every
pass emits exactly one critical swap Issue but notifies only when the key
`"swap_critical"` was newly inserted this pass or a kill/restart actually
occurred; the first not-above pass with the key present deletes it and
sends the "resolved" notification; a further pass with the key absent
emits neither a swap issue nor a swap notification and leaves the entry
unchanged. -/
theorem claim_C5 (cfg : SystemConfig) (s : WatchdogState) (now total used : Nat)
    (procs : List ProcessInfo) (ko : String → Bool) (restartOk rt : Bool)
    (dprocs : List DProc) :
    (cfg.swapThreshold < swapPercentOf total used →
      ((monitorSystem cfg s now (some (total, used)) procs ko restartOk rt dprocs).issues.filter
          (fun i => i.type == IssueType.swap) = [swapIssueOf total used])
      ∧ ((∃ ttl err, Event.notif "swap_critical" ttl err
            ∈ (monitorSystem cfg s now (some (total, used)) procs ko restartOk rt dprocs).events)
          ↔ (kiTruthy s.knownIssues "swap_critical" = false
             ∨ swapRemediated cfg procs ko restartOk rt = true))
      ∧ (kiTruthy s.knownIssues "swap_critical" = false →
          kiLookup (monitorSystem cfg s now (some (total, used)) procs ko restartOk rt
            dprocs).state.knownIssues "swap_critical" = some now))
    ∧ (¬ cfg.swapThreshold < swapPercentOf total used →
        kiTruthy s.knownIssues "swap_critical" = true →
      ((monitorSystem cfg s now (some (total, used)) procs ko restartOk rt dprocs).issues.filter
          (fun i => i.type == IssueType.swap) = [])
      ∧ kiLookup (monitorSystem cfg s now (some (total, used)) procs ko restartOk rt
          dprocs).state.knownIssues "swap_critical" = none
      ∧ Event.notif "swap_critical" "Swap Pressure Resolved" false
          ∈ (monitorSystem cfg s now (some (total, used)) procs ko restartOk rt dprocs).events)
    ∧ (¬ cfg.swapThreshold < swapPercentOf total used →
        kiTruthy s.knownIssues "swap_critical" = false →
      ((monitorSystem cfg s now (some (total, used)) procs ko restartOk rt dprocs).issues.filter
          (fun i => i.type == IssueType.swap) = [])
      ∧ (∀ ttl err, Event.notif "swap_critical" ttl err
          ∉ (monitorSystem cfg s now (some (total, used)) procs ko restartOk rt dprocs).events)
      ∧ kiLookup (monitorSystem cfg s now (some (total, used)) procs ko restartOk rt
          dprocs).state.knownIssues "swap_critical" = kiLookup s.knownIssues "swap_critical") := by
  obtain ⟨exIss, exEv, hIss, hEv, hIssT, hEvT, hKn⟩ :=
    monitorSystem_parts cfg s now (some (total, used)) procs ko restartOk rt dprocs
  have hExFilter : exIss.filter (fun i => i.type == IssueType.swap) = [] := by
    rw [List.filter_eq_nil_iff]
    intro i hi
    rw [hIssT i hi]
    decide
  have hExNoSwapNotif : ∀ ttl err, Event.notif "swap_critical" ttl err ∉ exEv := by
    intro ttl err hmem
    obtain ⟨x, hx⟩ := hEvT _ hmem
    have : "swap_critical" = "stuck:" ++ x := by
      injection hx
    exact stuck_key_ne_swap x this.symm
  refine ⟨?_, ?_, ?_⟩
  · intro habove
    have hsw := swapSection_above cfg s.knownIssues now total used procs ko restartOk rt habove
    refine ⟨?_, ?_, ?_⟩
    · rw [hIss, hsw]
      dsimp only
      rw [List.filter_append, hExFilter]
      simp [swapIssueOf]
    · exact monitorSystem_swap_notif_iff cfg s now total used procs ko restartOk rt dprocs
        habove
    · intro hnew
      rw [hKn, hsw]
      dsimp only
      rw [if_pos (by simp [hnew]), kiLookup_kiSet_self]
  · intro hbelow htr
    have hsw := swapSection_below_truthy cfg s.knownIssues now total used procs ko restartOk rt
      hbelow htr
    refine ⟨?_, ?_, ?_⟩
    · rw [hIss, hsw]
      dsimp only
      rw [List.nil_append, hExFilter]
    · rw [hKn, hsw]
      dsimp only
      exact kiLookup_kiDelete_self _ _
    · rw [hEv, hsw]
      dsimp only
      exact List.mem_append.mpr (Or.inl (List.mem_singleton.mpr rfl))
  · intro hbelow hf
    have hsw := swapSection_below_falsy cfg s.knownIssues now total used procs ko restartOk rt
      hbelow hf
    refine ⟨?_, ?_, ?_⟩
    · rw [hIss, hsw]
      dsimp only
      rw [List.nil_append, hExFilter]
    · intro ttl err hmem
      rw [hEv, hsw] at hmem
      dsimp only at hmem
      rw [List.nil_append] at hmem
      exact hExNoSwapNotif ttl err hmem
    · rw [hKn, hsw]

/-- C5 witness: swap at 50% with threshold 40 emits the critical issue and
records the key; with threshold 80 and the key present, a 50% reading
deletes the key and sends the resolved notification. -/
theorem claim_C5_witness :
    ((monitorSystem ⟨40, false, [], none⟩ ⟨none, 0, 0, 0, []⟩ 99 (some (2, 1)) []
        (fun _ => true) false false []).issues.filter (fun i => i.type == IssueType.swap)
      = [swapIssueOf 2 1])
    ∧ kiLookup (monitorSystem ⟨40, false, [], none⟩ ⟨none, 0, 0, 0, []⟩ 99 (some (2, 1)) []
        (fun _ => true) false false []).state.knownIssues "swap_critical" = some 99
    ∧ kiLookup (monitorSystem ⟨80, false, [], none⟩ ⟨none, 0, 0, 0, [("swap_critical", 5)]⟩ 99
        (some (2, 1)) [] (fun _ => true) false false []).state.knownIssues "swap_critical" = none
    ∧ Event.notif "swap_critical" "Swap Pressure Resolved" false
        ∈ (monitorSystem ⟨80, false, [], none⟩ ⟨none, 0, 0, 0, [("swap_critical", 5)]⟩ 99
          (some (2, 1)) [] (fun _ => true) false false []).events :=
  ⟨((claim_C5 ⟨40, false, [], none⟩ ⟨none, 0, 0, 0, []⟩ 99 2 1 [] (fun _ => true) false false
      []).1 (by norm_num [swapPercentOf])).1,
   ((claim_C5 ⟨40, false, [], none⟩ ⟨none, 0, 0, 0, []⟩ 99 2 1 [] (fun _ => true) false false
      []).1 (by norm_num [swapPercentOf])).2.2 (by decide),
   ((claim_C5 ⟨80, false, [], none⟩ ⟨none, 0, 0, 0, [("swap_critical", 5)]⟩ 99 2 1 []
      (fun _ => true) false false []).2.1 (by norm_num [swapPercentOf]) (by decide)).2.1,
   ((claim_C5 ⟨80, false, [], none⟩ ⟨none, 0, 0, 0, [("swap_critical", 5)]⟩ 99 2 1 []
      (fun _ => true) false false []).2.1 (by norm_num [swapPercentOf]) (by decide)).2.2⟩

/-! ### Claim C3 — dedup discipline of notifications and insertions -/

/-- Every loop iteration either leaves the registry and issue list alone
(possibly emitting non-notification effects), or processes a fresh key:
it appends the issue, binds the key to `now`, and any notification it
emits carries that key. -/
inductive StepShape (now : Nat) (acc result : ProcAcc) : Prop
  | passive (evs : List Event) (hev : ∀ k t e, Event.notif k t e ∉ evs)
      (heq : result = ⟨acc.issues, acc.known, acc.events ++ evs⟩) : StepShape now acc result
  | insert (issue : Issue) (evs : List Event)
      (hf : kiTruthy acc.known (getIssueKey issue) = false)
      (hev : ∀ k t e, Event.notif k t e ∈ evs → k = getIssueKey issue)
      (heq : result = ⟨acc.issues ++ [issue],
        kiSet acc.known (getIssueKey issue) now, acc.events ++ evs⟩) : StepShape now acc result

/-- Loop invariant relative to the registry `km` the pass started from:
truthy entries are untouched, every binding is original or stamped `now`,
and every emitted notification and issue belongs to a key that was falsy
in `km` and is now bound to `now`. -/
def RegistryFaithful (km : KnownIssues) (now : Nat) (acc : ProcAcc) : Prop :=
  (∀ k, kiTruthy km k = true → kiLookup acc.known k = kiLookup km k)
  ∧ (∀ k, kiLookup acc.known k = kiLookup km k ∨ kiLookup acc.known k = some now)
  ∧ (∀ k t e, Event.notif k t e ∈ acc.events →
      kiTruthy km k = false ∧ kiLookup acc.known k = some now)
  ∧ (∀ i ∈ acc.issues, kiTruthy km (getIssueKey i) = false
      ∧ kiLookup acc.known (getIssueKey i) = some now)

theorem RegistryFaithful_base (km : KnownIssues) (now : Nat) :
    RegistryFaithful km now ⟨[], km, []⟩ := by
  refine ⟨fun k _ => rfl, fun k => Or.inl rfl, ?_, ?_⟩
  · intro k t e hm
    exact absurd hm (List.not_mem_nil _)
  · intro i hi
    exact absurd hi (List.not_mem_nil _)

theorem RegistryFaithful_step (km : KnownIssues) (now : Nat) (hpos : 0 < now)
    (acc result : ProcAcc) (hshape : StepShape now acc result)
    (hinv : RegistryFaithful km now acc) : RegistryFaithful km now result := by
  obtain ⟨inv1, inv2, inv3, inv4⟩ := hinv
  cases hshape with
  | passive evs hev heq =>
    subst heq
    refine ⟨inv1, inv2, ?_, inv4⟩
    intro k t e hm
    rcases List.mem_append.mp hm with hm | hm
    · exact inv3 k t e hm
    · exact absurd hm (hev k t e)
  | insert issue evs hf hev heq =>
    subst heq
    have hkmf : kiTruthy km (getIssueKey issue) = false := by
      rcases inv2 (getIssueKey issue) with h | h
      · unfold kiTruthy at hf ⊢
        rw [h] at hf
        exact hf
      · unfold kiTruthy at hf
        rw [h] at hf
        simp at hf
        omega
    refine ⟨?_, ?_, ?_, ?_⟩
    · intro k hk
      dsimp only
      have hne : k ≠ getIssueKey issue := by
        intro hceq
        rw [hceq, hkmf] at hk
        exact Bool.noConfusion hk
      rw [kiLookup_kiSet_of_ne _ _ hne]
      exact inv1 k hk
    · intro k
      by_cases hk : k = getIssueKey issue
      · rw [hk]
        exact Or.inr (kiLookup_kiSet_self _ _ _)
      · dsimp only
        rw [kiLookup_kiSet_of_ne _ _ hk]
        exact inv2 k
    · intro k t e hm
      dsimp only at hm ⊢
      rcases List.mem_append.mp hm with hm | hm
      · obtain ⟨h1, h2⟩ := inv3 k t e hm
        refine ⟨h1, ?_⟩
        by_cases hk : k = getIssueKey issue
        · rw [hk]
          exact kiLookup_kiSet_self _ _ _
        · rw [kiLookup_kiSet_of_ne _ _ hk]
          exact h2
      · rw [hev k t e hm]
        exact ⟨hkmf, kiLookup_kiSet_self _ _ _⟩
    · intro i hi
      dsimp only at hi ⊢
      rcases List.mem_append.mp hi with hi | hi
      · obtain ⟨h1, h2⟩ := inv4 i hi
        refine ⟨h1, ?_⟩
        by_cases hk : getIssueKey i = getIssueKey issue
        · rw [hk]
          exact kiLookup_kiSet_self _ _ _
        · rw [kiLookup_kiSet_of_ne _ _ hk]
          exact h2
      · rw [List.mem_singleton.mp hi]
        exact ⟨hkmf, kiLookup_kiSet_self _ _ _⟩

theorem runawayPreEvents_no_notif (cfg : ProcessConfig) (acts : ActionConfig)
    (p : ProcessInfo) : ∀ k t e, Event.notif k t e ∉ runawayPreEvents cfg acts p := by
  intro k t e hm
  unfold runawayPreEvents at hm
  split at hm
  · exact Event.noConfusion (List.mem_singleton.mp hm)
  · split at hm
    · exact Event.noConfusion (List.mem_singleton.mp hm)
    · exact absurd hm (List.not_mem_nil _)

theorem runawayNotifEvents_keyed (cfg : ProcessConfig) (acts : ActionConfig)
    (ko : String → Bool) (p : ProcessInfo) (key : String) :
    ∀ k t e, Event.notif k t e ∈ runawayNotifEvents cfg acts ko p key → k = key := by
  intro k t e hm
  unfold runawayNotifEvents at hm
  split at hm
  · exact (Event.notif.inj (List.mem_singleton.mp hm)).1
  · split at hm
    · exact (Event.notif.inj (List.mem_singleton.mp hm)).1
    · exact absurd hm (List.not_mem_nil _)

theorem memoryNotifEvents_keyed (acts : ActionConfig) (p : ProcessInfo) (key : String) :
    ∀ k t e, Event.notif k t e ∈ memoryNotifEvents acts p key → k = key := by
  intro k t e hm
  unfold memoryNotifEvents at hm
  split at hm
  · exact Event.noConfusion (List.mem_singleton.mp hm)
  · exact (Event.notif.inj (List.mem_singleton.mp hm)).1

theorem runawayCheck_stepShape (cfg : ProcessConfig) (acts : ActionConfig)
    (ko : String → Bool) (now : Nat) (acc : ProcAcc) (p : ProcessInfo) :
    StepShape now acc (runawayCheck cfg acts ko now acc p) := by
  by_cases hcond : runawayCond cfg p
  · by_cases ht : kiTruthy acc.known
        (getIssueKey (runawayIssue p (runawayKilled cfg acts ko p))) = true
    · exact StepShape.passive (runawayPreEvents cfg acts p)
        (runawayPreEvents_no_notif cfg acts p)
        (runawayCheck_eq_known cfg acts ko now acc p hcond ht)
    · refine StepShape.insert (runawayIssue p (runawayKilled cfg acts ko p))
        (runawayPreEvents cfg acts p ++ runawayNotifEvents cfg acts ko p
          (getIssueKey (runawayIssue p (runawayKilled cfg acts ko p))))
        (Bool.eq_false_iff.mpr ht) ?_ ?_
      · intro k t e hm
        rcases List.mem_append.mp hm with hm | hm
        · exact absurd hm (runawayPreEvents_no_notif cfg acts p k t e)
        · exact runawayNotifEvents_keyed cfg acts ko p _ k t e hm
      · rw [runawayCheck_eq_new cfg acts ko now acc p hcond (Bool.eq_false_iff.mpr ht)]
        simp [List.append_assoc]
  · refine StepShape.passive [] ?_ ?_
    · intro k t e hm
      exact absurd hm (List.not_mem_nil _)
    · rw [runawayCheck_eq_of_not_cond cfg acts ko now acc p (Bool.eq_false_iff.mpr hcond)]
      simp

theorem memoryCheck_stepShape (cfg : ProcessConfig) (acts : ActionConfig)
    (now : Nat) (acc : ProcAcc) (p : ProcessInfo) :
    StepShape now acc (memoryCheck cfg acts now acc p) := by
  by_cases hcond : memoryCond cfg p
  · by_cases ht : kiTruthy acc.known (getIssueKey (memoryIssue p)) = true
    · refine StepShape.passive [] ?_ ?_
      · intro k t e hm
        exact absurd hm (List.not_mem_nil _)
      · rw [memoryCheck_eq_known cfg acts now acc p hcond ht]
        simp
    · refine StepShape.insert (memoryIssue p)
        (memoryNotifEvents acts p (getIssueKey (memoryIssue p)))
        (Bool.eq_false_iff.mpr ht)
        (memoryNotifEvents_keyed acts p _)
        (memoryCheck_eq_new cfg acts now acc p hcond (Bool.eq_false_iff.mpr ht))
  · refine StepShape.passive [] ?_ ?_
    · intro k t e hm
      exact absurd hm (List.not_mem_nil _)
    · rw [memoryCheck_eq_of_not_cond cfg acts now acc p (Bool.eq_false_iff.mpr hcond)]
      simp

theorem dstateStep_stepShape (now : Nat) (acc : ProcAcc) (d : DProc) :
    StepShape now acc (dstateStep now acc d) := by
  rcases dstateStep_shape now acc d with heq | ⟨x, _, hfl, heq⟩
  · refine StepShape.passive [] ?_ ?_
    · intro k t e hm
      exact absurd hm (List.not_mem_nil _)
    · rw [heq]
      simp
  · refine StepShape.insert (stuckIssue d)
      [Event.notif (getIssueKey (stuckIssue d)) "Stuck Process Detected" false] hfl ?_ heq
    intro k t e hm
    exact (Event.notif.inj (List.mem_singleton.mp hm)).1

theorem processStep_preserves_RF (cfg : ProcessConfig) (acts : ActionConfig)
    (ko : String → Bool) (km : KnownIssues) (now : Nat) (hpos : 0 < now)
    (acc : ProcAcc) (p : ProcessInfo) (hinv : RegistryFaithful km now acc) :
    RegistryFaithful km now (processStep cfg acts ko now acc p) := by
  by_cases hig : isIgnored cfg p
  · rw [processStep_eq_of_ignored cfg acts ko now acc p hig]
    exact hinv
  · rw [processStep_eq_of_not_ignored cfg acts ko now acc p (Bool.eq_false_iff.mpr hig)]
    exact RegistryFaithful_step km now hpos _ _
      (memoryCheck_stepShape cfg acts now _ p)
      (RegistryFaithful_step km now hpos _ _
        (runawayCheck_stepShape cfg acts ko now acc p) hinv)

theorem procLoop_preserves_RF (cfg : ProcessConfig) (acts : ActionConfig)
    (ko : String → Bool) (km : KnownIssues) (now : Nat) (hpos : 0 < now) :
    ∀ (procs : List ProcessInfo) (acc : ProcAcc), RegistryFaithful km now acc →
      RegistryFaithful km now (procLoop cfg acts ko now procs acc) := by
  intro procs
  induction procs with
  | nil => intro acc hinv; exact hinv
  | cons p rest ih =>
    intro acc hinv
    exact ih _ (processStep_preserves_RF cfg acts ko km now hpos acc p hinv)

theorem dstateLoop_preserves_RF (km : KnownIssues) (now : Nat) (hpos : 0 < now) :
    ∀ (dprocs : List DProc) (acc : ProcAcc), RegistryFaithful km now acc →
      RegistryFaithful km now (dstateLoop now dprocs acc) := by
  intro dprocs
  induction dprocs with
  | nil => intro acc hinv; exact hinv
  | cons d rest ih =>
    intro acc hinv
    exact ih _ (RegistryFaithful_step km now hpos _ _ (dstateStep_stepShape now acc d) hinv)

/-- C3 counterexample: with `killUnknown = ask` (the default) a runaway
process whose key `runaway:9` is already present still triggers a guidance
rendering on every pass — guidance is not gated by the dedup registry. -/
theorem claim_C3_counterexample :
    kiTruthy ([("runaway:9", 5)] : KnownIssues) "runaway:9" = true
    ∧ (monitorProcesses ⟨80, 2000, 2, [], []⟩ DEFAULT_ACTIONS (fun _ => true) 77
        [⟨"9", 99, 0, 3, "custom --loop", "R"⟩]
        ⟨none, 0, 0, 0, [("runaway:9", 5)]⟩).events
      = [Event.guidance IssueType.runaway "9"] := by
  decide

/-- C3 (amended): for runaway and memory issues in the process monitor and
stuck issues in the system monitor, a *notification* is emitted only if the
issue's dedup key was falsy in the registry the pass started from, and
every notified or recorded issue has its key bound to the current
timestamp; a key already present is neither re-notified nor re-recorded
and its binding is unchanged. Kill attempts and ask-mode runaway guidance
happen before the dedup check and are not gated by it. The container
monitor never reads or writes `knownIssues` and notifies on every
unhealthy probe; the swap notification is additionally sent when a kill or
restart actually occurred even though the key was already present. -/
theorem claim_C3 (cfg : ProcessConfig) (acts : ActionConfig) (ko : String → Bool)
    (now : Nat) (procs : List ProcessInfo) (km : KnownIssues)
    (dnow : Nat) (dprocs : List DProc) (dkm : KnownIssues)
    (ccfg : ContainerConfig) (cs : WatchdogState) (cnow : Nat) (ch : HealthResult)
    (crOk : Bool)
    (scfg : SystemConfig) (ss : WatchdogState) (snow total used : Nat)
    (sprocs : List ProcessInfo) (sko : String → Bool) (srOk srt : Bool)
    (sdprocs : List DProc)
    (hpos : 0 < now) (hdpos : 0 < dnow)
    (habove : scfg.swapThreshold < swapPercentOf total used) :
    (∀ k t e, Event.notif k t e ∈ (procLoop cfg acts ko now procs ⟨[], km, []⟩).events →
      kiTruthy km k = false
      ∧ kiLookup (procLoop cfg acts ko now procs ⟨[], km, []⟩).known k = some now)
    ∧ (∀ i ∈ (procLoop cfg acts ko now procs ⟨[], km, []⟩).issues,
        kiTruthy km (getIssueKey i) = false
        ∧ kiLookup (procLoop cfg acts ko now procs ⟨[], km, []⟩).known (getIssueKey i)
            = some now)
    ∧ (∀ k, kiTruthy km k = true →
        kiLookup (procLoop cfg acts ko now procs ⟨[], km, []⟩).known k = kiLookup km k
        ∧ ∀ i ∈ (procLoop cfg acts ko now procs ⟨[], km, []⟩).issues, getIssueKey i ≠ k)
    ∧ (∀ k t e, Event.notif k t e ∈ (dstateLoop dnow dprocs ⟨[], dkm, []⟩).events →
        kiTruthy dkm k = false
        ∧ kiLookup (dstateLoop dnow dprocs ⟨[], dkm, []⟩).known k = some dnow)
    ∧ (monitorContainer ccfg cs cnow ch crOk).state.knownIssues = cs.knownIssues
    ∧ (backoffActive ccfg cs cnow = false → ch.healthy = false →
        (monitorContainer ccfg cs cnow ch crOk).notifications ≠ [])
    ∧ ((∃ ttl err, Event.notif "swap_critical" ttl err
          ∈ (monitorSystem scfg ss snow (some (total, used)) sprocs sko srOk srt
            sdprocs).events)
        ↔ (kiTruthy ss.knownIssues "swap_critical" = false
           ∨ swapRemediated scfg sprocs sko srOk srt = true)) := by
  obtain ⟨pInv1, pInv2, pInv3, pInv4⟩ := procLoop_preserves_RF cfg acts ko km now hpos procs
    ⟨[], km, []⟩ (RegistryFaithful_base km now)
  obtain ⟨dInv1, dInv2, dInv3, dInv4⟩ := dstateLoop_preserves_RF dkm dnow hdpos dprocs
    ⟨[], dkm, []⟩ (RegistryFaithful_base dkm dnow)
  refine ⟨pInv3, pInv4, ?_, dInv3, ?_, ?_, ?_⟩
  · intro k hk
    refine ⟨pInv1 k hk, ?_⟩
    intro i hi hik
    have := (pInv4 i hi).1
    rw [hik, hk] at this
    exact Bool.noConfusion this
  · unfold monitorContainer
    by_cases hb : backoffActive ccfg cs cnow
    · rw [if_pos hb]
    · rw [if_neg hb]
      by_cases hh : ch.healthy
      · rw [if_pos hh]
      · rw [if_neg hh]
        dsimp only
        by_cases hr : crOk
        · rw [if_pos hr]
        · rw [if_neg hr]
  · intro hb hh
    unfold monitorContainer
    rw [if_neg (by simp [hb]), if_neg (by simp [hh])]
    dsimp only
    by_cases hr : crOk
    · rw [if_pos hr]
      simp
    · rw [if_neg hr]
      simp
  · exact monitorSystem_swap_notif_iff scfg ss snow total used sprocs sko srOk srt sdprocs
      habove

/-- C3 witness: a fresh runaway pid under deny mode is notified with its
key stamped; the container monitor leaves a nonempty registry untouched. -/
theorem claim_C3_witness :
    (kiTruthy ([] : KnownIssues) "runaway:7" = false
      ∧ kiLookup (procLoop ⟨80, 2000, 2, [], []⟩
          ⟨ActionMode.auto, ActionMode.deny, ActionMode.deny, ActionMode.ask, ActionMode.ask⟩
          (fun _ => true) 77 [⟨"7", 99, 0, 3, "worker --run", "R"⟩] ⟨[], [], []⟩).known
          "runaway:7" = some 77)
    ∧ (monitorContainer ⟨"http://h", "/srv/app", 10, 15, 60, none⟩
        ⟨none, 0, 0, 0, [("swap_critical", 5)]⟩ 9 ⟨true, 1, ""⟩ true).state.knownIssues
      = ([("swap_critical", 5)] : KnownIssues) :=
  ⟨(claim_C3 ⟨80, 2000, 2, [], []⟩
      ⟨ActionMode.auto, ActionMode.deny, ActionMode.deny, ActionMode.ask, ActionMode.ask⟩
      (fun _ => true) 77 [⟨"7", 99, 0, 3, "worker --run", "R"⟩] [] 1 [] []
      ⟨"http://h", "/srv/app", 10, 15, 60, none⟩ ⟨none, 0, 0, 0, [("swap_critical", 5)]⟩ 9
      ⟨true, 1, ""⟩ true ⟨40, false, [], none⟩ ⟨none, 0, 0, 0, []⟩ 99 2 1 []
      (fun _ => true) false false [] (by decide) (by decide)
      (by norm_num [swapPercentOf])).1
      "runaway:7" "Runaway Process Detected" true (by decide),
    (claim_C3 ⟨80, 2000, 2, [], []⟩
      ⟨ActionMode.auto, ActionMode.deny, ActionMode.deny, ActionMode.ask, ActionMode.ask⟩
      (fun _ => true) 77 [⟨"7", 99, 0, 3, "worker --run", "R"⟩] [] 1 [] []
      ⟨"http://h", "/srv/app", 10, 15, 60, none⟩ ⟨none, 0, 0, 0, [("swap_critical", 5)]⟩ 9
      ⟨true, 1, ""⟩ true ⟨40, false, [], none⟩ ⟨none, 0, 0, 0, []⟩ 99 2 1 []
      (fun _ => true) false false [] (by decide) (by decide)
      (by norm_num [swapPercentOf])).2.2.2.2.1⟩

end Defib
